import Mathlib

/-!
Verification development for the Blue Ox ride booking/payment/refund core.

The definitions below are a shallow embedding of:
* the PostgreSQL schema and the `update_available_seats` trigger of
  `supabase/add-car-details-migration.sql`;
* the Pandora webhook handler `supabase/functions/pandora-webhook/index.ts`;
* the payment initiation handler and the process-refund handler of
  `supabase/functions/initiate-payment/index.ts`.

The database is a record of three lists of rows.  Each supabase call
(`update`, `insert`) is modelled as a pure function on that record; an
`UPDATE` of `rides` that would violate a `CHECK` constraint of the schema
returns `none` (the statement, and with it the surrounding trigger, aborts).
Transient write failures of the store are modelled by boolean write-outcome
parameters, and the external Pandora gateway by an outcome parameter.
JavaScript number arithmetic (the `Math.ceil(price * 0.1 * seats)` booking
fee) is modelled by exact IEEE-754 binary64 round-to-nearest-even rounding
over `ℚ`.
-/

namespace BlueOx

/-- `ride_status` enum of the schema. -/
inductive RideStatus where
  | active
  | full
  | completed
  | cancelled
deriving DecidableEq, Repr

/-- `booking_status` enum of the schema. -/
inductive BookingStatus where
  | pending_payment
  | confirmed
  | cancelled_by_passenger
  | cancelled_by_driver
  | completed
deriving DecidableEq, Repr

/-- `payment_status` enum of the schema. -/
inductive PaymentStatus where
  | pending
  | processing
  | completed
  | failed
  | refunded
deriving DecidableEq, Repr

/-- `payment_type` enum of the schema. -/
inductive PaymentType where
  | booking_fee
  | refund_to_passenger
  | refund_to_driver
deriving DecidableEq, Repr

/-- A row of `public.rides` (the columns the core reads or writes).
`departure_time` is a millisecond epoch timestamp. -/
structure Ride where
  id : Nat
  driver_id : Nat
  departure_time : Int
  price : Int
  available_seats : Int
  total_seats : Int
  status : RideStatus
deriving DecidableEq, Repr

/-- A row of `public.bookings`. -/
structure Booking where
  id : Nat
  ride_id : Nat
  passenger_id : Nat
  seats_booked : Int
  booking_fee : Int
  status : BookingStatus
deriving DecidableEq, Repr

/-- A row of `public.payments`. -/
structure Payment where
  id : Nat
  booking_id : Nat
  user_id : Nat
  amount : Int
  payment_type : PaymentType
  status : PaymentStatus
  pandora_reference : String
  pandora_transaction_id : Option String
  phone_number : String
  error_message : Option String
  retry_count : Int
deriving DecidableEq, Repr

/-- The ledger store: the three tables the core touches. -/
structure DB where
  rides : List Ride
  bookings : List Booking
  payments : List Payment
deriving DecidableEq, Repr

/-! ### UPDATEs of `rides` guarded by the schema CHECK constraints

The schema declares `CHECK (available_seats >= 0)` and
`CONSTRAINT valid_seats CHECK (available_seats <= total_seats)`.  An
`UPDATE public.rides` statement whose result row violates either constraint
raises an error and aborts; the functions below return `none` in that case. -/

/-- `UPDATE public.rides SET available_seats = available_seats - seats
WHERE id = rid`, aborting (`none`) if an updated row would violate a CHECK
constraint. -/
def decRideSeats (rid : Nat) (seats : Int) (rides : List Ride) :
    Option (List Ride) :=
  if rides.all (fun r =>
      r.id ≠ rid ∨
      (0 ≤ r.available_seats - seats ∧
        r.available_seats - seats ≤ r.total_seats)) then
    some (rides.map (fun r =>
      if r.id = rid then
        { r with available_seats := r.available_seats - seats }
      else r))
  else none

/-- `UPDATE public.rides SET status = 'full' WHERE id = rid AND
available_seats = 0` (the second statement of the confirm branch of the
trigger). -/
def markFullIfEmpty (rid : Nat) (rides : List Ride) : List Ride :=
  rides.map (fun r =>
    if r.id = rid ∧ r.available_seats = 0 then { r with status := .full }
    else r)

/-- `UPDATE public.rides SET available_seats = available_seats +
seats, status = 'active' WHERE id = rid` (the release branch of the
trigger), aborting on a CHECK violation. -/
def releaseRideSeats (rid : Nat) (seats : Int) (rides : List Ride) :
    Option (List Ride) :=
  if rides.all (fun r =>
      r.id ≠ rid ∨
      (0 ≤ r.available_seats + seats ∧
        r.available_seats + seats ≤ r.total_seats)) then
    some (rides.map (fun r =>
      if r.id = rid then
        { r with available_seats := r.available_seats + seats,
                 status := .active }
      else r))
  else none

/-- The `update_available_seats` trigger function, fired `AFTER UPDATE` on
`public.bookings` for each row, with `old` the row before and `nb` the row
after the update.  Returns the resulting `rides` table, or `none` when an
inner `UPDATE` aborted (which aborts the whole transaction). -/
def update_available_seats (old nb : Booking) (rides : List Ride) :
    Option (List Ride) :=
  if nb.status = .confirmed ∧ old.status ≠ .confirmed then
    (decRideSeats nb.ride_id nb.seats_booked rides).map
      (markFullIfEmpty nb.ride_id)
  else if (nb.status = .cancelled_by_passenger ∨
           nb.status = .cancelled_by_driver) ∧ old.status = .confirmed then
    releaseRideSeats nb.ride_id old.seats_booked rides
  else
    some rides

/-- `UPDATE public.bookings SET status = ns WHERE id = bid`, together with
the `booking_seats_update` trigger.  `none` when the trigger aborted the
transaction; if no row matches, the update succeeds without effect. -/
def updateBookingStatus (db : DB) (bid : Nat) (ns : BookingStatus) :
    Option DB :=
  match db.bookings.find? (fun b => b.id = bid) with
  | none => some db
  | some old =>
    match update_available_seats old { old with status := ns } db.rides with
    | none => none
    | some rides2 =>
      some { db with
        rides := rides2,
        bookings := db.bookings.map (fun b =>
          if b.id = bid then { b with status := ns } else b) }

/-- `UPDATE public.payments SET ... WHERE id = pid` with `f` the column
assignment. -/
def updatePayment (db : DB) (pid : Nat) (f : Payment → Payment) : DB :=
  { db with payments := db.payments.map (fun p =>
      if p.id = pid then f p else p) }

/-! ### Read helpers over the store -/

/-- Status of the booking row with the given id. -/
def bookingStatus? (db : DB) (bid : Nat) : Option BookingStatus :=
  (db.bookings.find? (fun b => b.id = bid)).map (fun b => b.status)

/-- Status of the payment row with the given id. -/
def paymentStatusById? (db : DB) (pid : Nat) : Option PaymentStatus :=
  (db.payments.find? (fun p => p.id = pid)).map (fun p => p.status)

/-- Amount of the payment row with the given id. -/
def paymentAmountById? (db : DB) (pid : Nat) : Option Int :=
  (db.payments.find? (fun p => p.id = pid)).map (fun p => p.amount)

/-- Type of the payment row with the given id. -/
def paymentTypeById? (db : DB) (pid : Nat) : Option PaymentType :=
  (db.payments.find? (fun p => p.id = pid)).map (fun p => p.payment_type)

/-- The payment row holding the given `pandora_reference`
(`.eq('pandora_reference', ref).single()`; the column is UNIQUE, so the
first match is the row). -/
def findPaymentByRef (db : DB) (ref : String) : Option Payment :=
  db.payments.find? (fun p => p.pandora_reference = ref)

/-- `available_seats` of the ride row with the given id. -/
def rideSeats? (db : DB) (rid : Nat) : Option Int :=
  (db.rides.find? (fun r => r.id = rid)).map (fun r => r.available_seats)

/-- Status of the ride row with the given id. -/
def rideStatus? (db : DB) (rid : Nat) : Option RideStatus :=
  (db.rides.find? (fun r => r.id = rid)).map (fun r => r.status)

/-! ### IEEE-754 binary64 arithmetic model

The handlers compute `Math.ceil(price * 0.1 * seats)` over JavaScript
numbers, i.e. IEEE-754 binary64 with round-to-nearest, ties-to-even.  Every
value arising in that expression is a positive dyadic rational deep inside
the normal range (`price` is a positive SQL `INTEGER`, `seats_booked` is
1–4), so we model a binary64 value exactly as an integer mantissa `m`
together with a power-of-two scale `k`, denoting `m / 2^k`, and a rounding
step as the round-to-nearest-even shift that truncates the mantissa back to
at most 53 bits.  The literal `0.1` denotes the binary64 value
`3602879701896397 / 2^55` (mantissa `0x1999999999999A`, exponent `-4`). -/

/-- Number of binary digits of `n`, fuel-bounded recursion
(`bitLenAux fuel n` is correct whenever `n < 2^fuel`). -/
def bitLenAux : Nat → Nat → Nat
  | 0, _ => 0
  | fuel + 1, n => if n = 0 then 0 else bitLenAux fuel (n / 2) + 1

/-- Number of binary digits of `n`: `2^(bitLen n - 1) ≤ n < 2^(bitLen n)`
for `0 < n < 2^300` (ample for every quantity computed here). -/
def bitLen (n : Nat) : Nat := bitLenAux 300 n

/-- Round `m / 2^d` to the nearest integer, ties to even
(for a nonnegative mantissa `m`). -/
def roundNearestShift (m : Int) (d : Nat) : Int :=
  let t : Int := 2 ^ d
  let q := m / t
  let r := m % t
  if 2 * r < t then q
  else if t < 2 * r then q + 1
  else if q % 2 = 0 then q else q + 1

/-- Round the positive dyadic value `m / 2^k` to binary64: if the mantissa
already fits in 53 bits the value is exact, otherwise the mantissa is
rounded (nearest, ties-to-even) down to 53 bits. -/
def roundM (m : Int) (k : Int) : Int × Int :=
  let L := bitLen m.natAbs
  if L ≤ 53 then (m, k)
  else (roundNearestShift m (L - 53), k - (L - 53 : Nat))

/-- `⌈m / 2^k⌉` over integers. -/
def ceilShift (m : Int) (k : Int) : Int :=
  if 0 ≤ k then (m + (2 ^ k.toNat - 1)) / 2 ^ k.toNat
  else m * 2 ^ (-k).toNat

/-- The integer mantissa of the binary64 value of the literal `0.1`
(which denotes exactly `m0_1 / 2^55`). -/
def m0_1 : Int := 3602879701896397

/-- `Math.ceil(price * 0.1 * seats_booked)` of the initiate-payment
handler, evaluated in binary64: `price * 0.1` rounds the exact product
`price * m0_1 / 2^55` to 53 significant bits, the result times `seats`
rounds again, and `Math.ceil` of the resulting (exactly represented) value
is its exact ceiling. -/
def bookingFee (price seats : Int) : Int :=
  let x1 := price * m0_1
  let t1 := roundM x1 55
  let x2 := t1.1 * seats
  let t2 := roundM x2 t1.2
  ceilShift t2.1 t2.2

/-- The exact rational denoted by mantissa `m` at scale `k` (used only to
state and prove facts about the model). -/
def dyVal (m : Int) (k : Int) : ℚ := (m : ℚ) / 2 ^ k

/-! ### The Pandora webhook handler (`pandora-webhook/index.ts`) -/

/-- The webhook payload fields the handler reads.  `none` models an absent
JSON field (JavaScript `undefined`). -/
structure WebhookPayload where
  transaction_ref : Option String
  transaction_reference : Option String
  status : Option String
  message : Option String
  reason : Option String
deriving DecidableEq, Repr

/-- JavaScript falsiness of an optional string: `undefined` or `''`. -/
def falsy : Option String → Bool
  | none => true
  | some s => s.isEmpty

/-- JavaScript `a || b` on optional strings. -/
def orFalsy (a b : Option String) : Option String :=
  match a with
  | some s => if s.isEmpty then b else some s
  | none => b

/-- `payload.transaction_ref || payload.transaction_reference`. -/
def webhookRef (pl : WebhookPayload) : Option String :=
  orFalsy pl.transaction_ref pl.transaction_reference

/-- The HTTP response of the webhook handler: status code plus the
`success`/message JSON body. -/
structure WebhookResponse where
  httpStatus : Nat
  success : Bool
  message : String
deriving DecidableEq, Repr

/-- Transient-outcome parameters for the three store writes the webhook
handler can attempt: `false` means the corresponding supabase `update`
returns an error. -/
structure WebhookWrites where
  paymentOk : Bool
  bookingOk : Bool
  failedOk : Bool
deriving DecidableEq, Repr

/-- All writes succeed. -/
def allWritesOk : WebhookWrites := ⟨true, true, true⟩

/-- The default error message of the failed/cancelled/expired branch:
`payload.message || payload.reason || (status-specific default)`. -/
def webhookErrorMessage (pl : WebhookPayload) (st : String) : String :=
  match orFalsy pl.message pl.reason with
  | some s =>
    if s.isEmpty then
      if st = "cancelled" then "Transaction cancelled by user"
      else if st = "expired" then
        "Transaction expired - user did not complete in time"
      else "Payment failed"
    else s
  | none =>
    if st = "cancelled" then "Transaction cancelled by user"
    else if st = "expired" then
      "Transaction expired - user did not complete in time"
    else "Payment failed"

/-- The webhook handler (`serve` of `pandora-webhook/index.ts`).  Returns
the store after the request together with the HTTP response.  A thrown
error is caught by the handler's `catch`, which answers HTTP 200 with
`success: false`. -/
def processWebhook (db : DB) (w : WebhookWrites) (pl : WebhookPayload) :
    DB × WebhookResponse :=
  if falsy (webhookRef pl) ∨ falsy pl.status then
    (db, ⟨200, false, "Missing required fields: transaction_ref and status"⟩)
  else
    let ref := (webhookRef pl).getD ""
    let st := pl.status.getD ""
    match findPaymentByRef db ref with
    | none => (db, ⟨200, false, "Unknown transaction reference"⟩)
    | some payment =>
      if payment.status = .completed ∨ payment.status = .refunded then
        (db, ⟨200, true, "Payment already processed"⟩)
      else if st = "completed" then
        if w.paymentOk = false then
          (db, ⟨200, false, "Failed to update payment status"⟩)
        else
          let db1 := updatePayment db payment.id (fun p =>
            { p with status := .completed,
                     pandora_transaction_id := some ref })
          if w.bookingOk = false then
            (db1, ⟨200, false, "Failed to confirm booking"⟩)
          else
            match updateBookingStatus db1 payment.booking_id .confirmed with
            | none => (db1, ⟨200, false, "Failed to confirm booking"⟩)
            | some db2 =>
              (db2, ⟨200, true, "Webhook processed successfully"⟩)
      else if st = "failed" ∨ st = "cancelled" ∨ st = "expired" then
        if w.failedOk then
          (updatePayment db payment.id (fun p =>
            { p with status := .failed,
                     error_message := some (webhookErrorMessage pl st),
                     retry_count := p.retry_count + 1 }),
           ⟨200, true, "Webhook processed successfully"⟩)
        else
          (db, ⟨200, true, "Webhook processed successfully"⟩)
      else
        (db, ⟨200, true, "Webhook processed successfully"⟩)

/-! ### The initiate-payment handler (`initiate-payment/index.ts`) -/

/-- `[7-9]\d{8}` anchored at both ends. -/
def phoneBody : List Char → Bool
  | c :: rest =>
    (c = '7' ∨ c = '8' ∨ c = '9') ∧ rest.length = 8 ∧ rest.all Char.isDigit
  | [] => false

/-- The Uganda phone test `/^(\+256|256|0)?[7-9]\d{8}$/` applied to the
whitespace-stripped input. -/
def phoneRegexTest (s : String) : Bool :=
  let cs := s.toList
  phoneBody cs ||
  (match cs with
   | '+' :: '2' :: '5' :: '6' :: rest => phoneBody rest
   | '2' :: '5' :: '6' :: rest => phoneBody rest
   | '0' :: rest => phoneBody rest
   | _ => false)

/-- `phone_number.replace(/\s/g, '')`. -/
def stripSpaces (s : String) : String :=
  String.mk (s.toList.filter (fun c => c.isWhitespace = false))

/-- Normalisation to the `256XXXXXXXXX` form Pandora requires. -/
def normalizePhone (s : String) : String :=
  if s.startsWith "+256" then s.drop 1
  else if s.startsWith "0" then "256" ++ s.drop 1
  else if s.startsWith "256" = false then "256" ++ s
  else s

/-- Outcome of a call to the Pandora gateway: a success acknowledgment
(with an optional gateway transaction id), a non-JSON response, or a
rejection with an optional message. -/
inductive GatewayOutcome where
  | ok (txid : Option String)
  | parseFail
  | apiFail (msg : Option String)
deriving DecidableEq, Repr

/-- The response of the initiate-payment handler. -/
structure InitiateResult where
  httpStatus : Nat
  success : Bool
  error : Option String
  reference : Option String
  amount : Option Int
  phone : Option String
deriving DecidableEq, Repr

/-- An initiate-payment failure response (the `catch` answers HTTP 400). -/
def initErr (msg : String) : InitiateResult :=
  ⟨400, false, some msg, none, none, none⟩

/-- The initiate-payment handler (`serve` of the second version in
`initiate-payment/index.ts`), for an authenticated user `uid`.  `now` is
the request time in epoch milliseconds, `newPid` the id the store assigns
to the inserted payment row, `newRef` the generated
`BLUEOX<timestamp><random>` reference, and `gw` the gateway outcome. -/
def initiatePayment (db : DB) (uid bid : Nat) (phone : String) (now : Int)
    (newPid : Nat) (newRef : String) (gw : GatewayOutcome) :
    DB × InitiateResult :=
  let cleanPhone := stripSpaces phone
  if phoneRegexTest cleanPhone = false then
    (db, initErr "Invalid phone number format. Use Uganda format: 07XXXXXXXX or 256XXXXXXXXX")
  else
    let normalizedPhone := normalizePhone cleanPhone
    match db.bookings.find? (fun b => b.id = bid) with
    | none => (db, initErr "Booking not found")
    | some booking =>
      match db.rides.find? (fun r => r.id = booking.ride_id) with
      | none => (db, initErr "Booking not found")
      | some ride =>
        if booking.passenger_id ≠ uid then
          (db, initErr "You can only pay for your own bookings")
        else if booking.status ≠ .pending_payment then
          (db, initErr "Cannot process payment")
        else if ride.departure_time < now then
          (db, initErr "Cannot pay for a ride that has already departed")
        else
          let fee := bookingFee ride.price booking.seats_booked
          -- INSERT INTO payments: UNIQUE (pandora_reference) and
          -- CHECK (amount > 0)
          if db.payments.any (fun p => p.pandora_reference = newRef) ∨
              fee ≤ 0 then
            (db, initErr "Failed to create payment record")
          else
            let db1 : DB := { db with payments := db.payments ++
              [{ id := newPid, booking_id := bid, user_id := uid,
                 amount := fee, payment_type := .booking_fee,
                 status := .pending, pandora_reference := newRef,
                 pandora_transaction_id := none,
                 phone_number := normalizedPhone, error_message := none,
                 retry_count := 0 }] }
            let db2 : DB :=
              if booking.booking_fee ≠ fee then
                { db1 with bookings := db1.bookings.map (fun b =>
                    if b.id = bid then { b with booking_fee := fee }
                    else b) }
              else db1
            match gw with
            | .parseFail =>
              (updatePayment db2 newPid (fun p =>
                { p with status := .failed,
                         error_message :=
                           some "Payment service unavailable. Please try again." }),
               initErr "Payment service temporarily unavailable. Please try again.")
            | .apiFail m =>
              (updatePayment db2 newPid (fun p =>
                { p with status := .failed,
                         error_message := some (m.getD "Pandora API error") }),
               initErr "Payment initiation failed")
            | .ok txid =>
              (updatePayment db2 newPid (fun p =>
                { p with status := .processing,
                         pandora_transaction_id :=
                           some (txid.getD newRef) }),
               ⟨200, true, none, some newRef, some fee,
                 some normalizedPhone⟩)

/-! ### The process-refund handler (`initiate-payment/index.ts`, third
request handler) -/

/-- The `cancellation_type` of the refund request, also used for the
resolved refund recipient. -/
inductive Party where
  | passenger
  | driver
deriving DecidableEq, Repr

/-- The refund-routing policy of the handler: driver cancellations refund
the passenger; passenger cancellations refund the passenger when more than
one hour (3 600 000 ms) remains to departure and otherwise the driver. -/
def refundRecipient (ctype : Party) (msUntilDeparture : Int) : Party :=
  if ctype = .driver then .passenger
  else if 3600000 < msUntilDeparture then .passenger
  else .driver

/-- The `payment_type` recorded for a refund to the given recipient. -/
def refundPaymentType : Party → PaymentType
  | .passenger => .refund_to_passenger
  | .driver => .refund_to_driver

/-- The response of the process-refund handler. -/
structure RefundResult where
  httpStatus : Nat
  success : Bool
  error : Option String
  refund_to : Option Party
  amount : Option Int
  reference : Option String
deriving DecidableEq, Repr

/-- A process-refund failure response (the `catch` answers HTTP 400). -/
def refundErr (msg : String) : RefundResult :=
  ⟨400, false, some msg, none, none, none⟩

/-- Resolution of the refund recipient's payout contact and user id: the
passenger is paid on the phone number of the original payment; the driver
on the `users` profile number, which must be present and non-empty. -/
def resolveRecipient (refundTo : Party) (originalPayment : Payment)
    (booking : Booking) (ride : Ride) (driverPhone : Option String) :
    Option (String × Nat) :=
  match refundTo with
  | .passenger => some (originalPayment.phone_number, booking.passenger_id)
  | .driver =>
    match driverPhone with
    | none => none
    | some ph => if ph.isEmpty then none else some (ph, ride.driver_id)

/-- The process-refund handler (`serve` of the process-refund edge function)
for an authenticated user `uid`.  `driverPhone` is the driver's
`phone_number` on the `users` table (`none` or empty when absent), `newPid`
the id assigned to the inserted refund payment row, `refundRef` the
generated refund reference, and `gw` the disbursement outcome
(`pandoraResponse.ok`). -/
def processRefund (db : DB) (uid bid : Nat) (ctype : Party) (now : Int)
    (driverPhone : Option String) (newPid : Nat) (refundRef : String)
    (gw : GatewayOutcome) : DB × RefundResult :=
  match db.bookings.find? (fun b => b.id = bid ∧ b.status = .confirmed) with
  | none => (db, refundErr "Confirmed booking not found")
  | some booking =>
    match db.rides.find? (fun r => r.id = booking.ride_id) with
    | none => (db, refundErr "Confirmed booking not found")
    | some ride =>
      if ctype = .driver ∧ ride.driver_id ≠ uid then
        (db, refundErr "Only the driver can cancel as driver")
      else if ctype = .passenger ∧ booking.passenger_id ≠ uid then
        (db, refundErr "Only the passenger can cancel as passenger")
      else
        match (db.payments.filter (fun p => p.booking_id = bid)).find?
            (fun p => p.status = .completed ∧ 0 < p.amount) with
        | none => (db, refundErr "No completed payment found for this booking")
        | some originalPayment =>
          let refundTo := refundRecipient ctype (ride.departure_time - now)
          let refundType := refundPaymentType refundTo
          match resolveRecipient refundTo originalPayment booking ride
              driverPhone with
          | none =>
            (db, refundErr "Driver phone number not found. Please contact support.")
          | some rec =>
            -- INSERT INTO payments: UNIQUE (pandora_reference) and
            -- CHECK (amount > 0); originalPayment.amount > 0 held by the
            -- find? predicate
            if db.payments.any (fun p => p.pandora_reference = refundRef) then
              (db, refundErr "Failed to create refund record")
            else
              let db1 : DB := { db with payments := db.payments ++
                [{ id := newPid, booking_id := bid, user_id := rec.2,
                   amount := originalPayment.amount,
                   payment_type := refundType, status := .pending,
                   pandora_reference := refundRef,
                   pandora_transaction_id := none, phone_number := rec.1,
                   error_message := none, retry_count := 0 }] }
              match gw with
              | .parseFail =>
                (updatePayment db1 newPid (fun p =>
                  { p with status := .failed,
                           error_message := some "Refund initiation failed" }),
                 refundErr "Refund initiation failed")
              | .apiFail m =>
                (updatePayment db1 newPid (fun p =>
                  { p with status := .failed,
                           error_message :=
                             some (m.getD "Refund initiation failed") }),
                 refundErr "Refund initiation failed")
              | .ok txid =>
                let db2 := updatePayment db1 newPid (fun p =>
                  { p with status := .processing,
                           pandora_transaction_id := txid })
                let newStatus : BookingStatus :=
                  if ctype = .driver then .cancelled_by_driver
                  else .cancelled_by_passenger
                -- the handler does not check the error of this update
                let db3 := (updateBookingStatus db2 bid newStatus).getD db2
                let db4 := updatePayment db3 originalPayment.id (fun p =>
                  { p with status := .refunded })
                (db4, ⟨200, true, none, some refundTo,
                  some originalPayment.amount, some refundRef⟩)

/-! ### Sequences of booking confirmations and cancellations -/

/-- A seat-inventory operation: the booking-status transitions that drive
the `update_available_seats` trigger. -/
inductive SeatOp where
  | confirm (bid : Nat)
  | cancelByPassenger (bid : Nat)
  | cancelByDriver (bid : Nat)
deriving DecidableEq, Repr

/-- Apply one operation; an aborted transaction leaves the store
unchanged. -/
def applySeatOp (db : DB) (op : SeatOp) : DB :=
  match op with
  | .confirm bid => (updateBookingStatus db bid .confirmed).getD db
  | .cancelByPassenger bid =>
    (updateBookingStatus db bid .cancelled_by_passenger).getD db
  | .cancelByDriver bid =>
    (updateBookingStatus db bid .cancelled_by_driver).getD db

/-- Run a sequence of operations. -/
def runSeatOps (db : DB) (ops : List SeatOp) : DB :=
  ops.foldl applySeatOp db

/-- The seat-inventory invariant of the schema:
`0 ≤ available_seats ≤ total_seats` on every ride row. -/
def seatInv (db : DB) : Prop :=
  ∀ r ∈ db.rides, 0 ≤ r.available_seats ∧ r.available_seats ≤ r.total_seats

instance : DecidablePred seatInv := fun db => by
  unfold seatInv; infer_instance

/-- The seat-inventory invariant on a `rides` table alone. -/
def seatInvRides (rides : List Ride) : Prop :=
  ∀ r ∈ rides, 0 ≤ r.available_seats ∧ r.available_seats ≤ r.total_seats

/-! ## General lemmas -/

theorem find?_map_comm {α : Type} (g : α → α) (q : α → Bool)
    (hg : ∀ a, q (g a) = q a) (l : List α) :
    (l.map g).find? q = (l.find? q).map g := by
  induction l with
  | nil => simp
  | cons a t ih =>
    by_cases h : q a = true
    · rw [List.map_cons, List.find?_cons_of_pos _ (by rw [hg]; exact h),
        List.find?_cons_of_pos _ h, Option.map_some']
    · rw [List.map_cons,
        List.find?_cons_of_neg _ (by rw [hg]; simpa using h),
        List.find?_cons_of_neg _ (by simpa using h), ih]

theorem seatInv_iff (db : DB) : seatInv db ↔ seatInvRides db.rides :=
  Iff.rfl

/-! ## Seat-allocator invariant preservation (claim C3 support) -/

theorem decRideSeats_inv {rid : Nat} {seats : Int} {rides rides2 : List Ride}
    (hinv : seatInvRides rides)
    (h : decRideSeats rid seats rides = some rides2) :
    seatInvRides rides2 := by
  unfold decRideSeats at h
  split at h
  · rename_i hall
    cases h
    intro r2 hr2
    rcases List.mem_map.mp hr2 with ⟨r, hr, rfl⟩
    by_cases hid : r.id = rid
    · have := List.all_eq_true.mp hall r hr
      have hprop := of_decide_eq_true this
      rcases hprop with hne | hb
      · exact absurd hid hne
      · simpa [hid] using hb
    · simpa [hid] using hinv r hr
  · exact absurd h (by simp)

theorem markFullIfEmpty_inv {rid : Nat} {rides : List Ride}
    (hinv : seatInvRides rides) :
    seatInvRides (markFullIfEmpty rid rides) := by
  intro r2 hr2
  rcases List.mem_map.mp hr2 with ⟨r, hr, rfl⟩
  by_cases hc : r.id = rid ∧ r.available_seats = 0
  · simpa [markFullIfEmpty, hc] using hinv r hr
  · simpa [markFullIfEmpty, hc] using hinv r hr

theorem releaseRideSeats_inv {rid : Nat} {seats : Int}
    {rides rides2 : List Ride} (hinv : seatInvRides rides)
    (h : releaseRideSeats rid seats rides = some rides2) :
    seatInvRides rides2 := by
  unfold releaseRideSeats at h
  split at h
  · rename_i hall
    cases h
    intro r2 hr2
    rcases List.mem_map.mp hr2 with ⟨r, hr, rfl⟩
    by_cases hid : r.id = rid
    · have := List.all_eq_true.mp hall r hr
      have hprop := of_decide_eq_true this
      rcases hprop with hne | hb
      · exact absurd hid hne
      · simpa [hid] using hb
    · simpa [hid] using hinv r hr
  · exact absurd h (by simp)

theorem update_available_seats_inv {old nb : Booking}
    {rides rides2 : List Ride} (hinv : seatInvRides rides)
    (h : update_available_seats old nb rides = some rides2) :
    seatInvRides rides2 := by
  unfold update_available_seats at h
  split at h
  · rcases Option.map_eq_some'.mp h with ⟨rides1, hdec, rfl⟩
    exact markFullIfEmpty_inv (decRideSeats_inv hinv hdec)
  · split at h
    · exact releaseRideSeats_inv hinv h
    · cases h; exact hinv

theorem updateBookingStatus_inv {db db2 : DB} {bid : Nat}
    {ns : BookingStatus} (hinv : seatInv db)
    (h : updateBookingStatus db bid ns = some db2) : seatInv db2 := by
  unfold updateBookingStatus at h
  split at h
  · cases h; exact hinv
  · rename_i old hold
    split at h
    · exact absurd h (by simp)
    · rename_i rides2 hr2
      cases h
      exact update_available_seats_inv hinv hr2

theorem applySeatOp_inv {db : DB} (op : SeatOp) (hinv : seatInv db) :
    seatInv (applySeatOp db op) := by
  cases op with
  | confirm bid =>
    unfold applySeatOp
    cases h : updateBookingStatus db bid .confirmed with
    | none => simpa [h] using hinv
    | some db2 => simpa [h] using updateBookingStatus_inv hinv h
  | cancelByPassenger bid =>
    unfold applySeatOp
    cases h : updateBookingStatus db bid .cancelled_by_passenger with
    | none => simpa [h] using hinv
    | some db2 => simpa [h] using updateBookingStatus_inv hinv h
  | cancelByDriver bid =>
    unfold applySeatOp
    cases h : updateBookingStatus db bid .cancelled_by_driver with
    | none => simpa [h] using hinv
    | some db2 => simpa [h] using updateBookingStatus_inv hinv h

/-! ## Sample rows used by the concrete witnesses -/

/-- A sample ride: 3 of 3 seats free, departs at epoch-ms 7 200 000. -/
def wRide : Ride := ⟨1, 10, 7200000, 5000, 3, 3, .active⟩

/-- A sample booking of 2 seats on `wRide`, awaiting payment. -/
def wBooking : Booking := ⟨2, 1, 20, 2, 1000, .pending_payment⟩

/-- A sample booking-fee payment for `wBooking`, accepted by the gateway. -/
def wPayment : Payment :=
  ⟨3, 2, 20, 1000, .booking_fee, .processing, "REF1", none,
    "256771234567", none, 0⟩

/-- A sample store holding the three rows above. -/
def wDB : DB := ⟨[wRide], [wBooking], [wPayment]⟩

/-- A sample `completed` webhook payload for `wPayment`. -/
def wPayload : WebhookPayload :=
  ⟨some "REF1", none, some "completed", none, none⟩

/-! ## Webhook completed-branch computation -/

theorem webhook_completed_shape
    (db : DB) (w : WebhookWrites) (pl : WebhookPayload) (r : String)
    (p : Payment) (b : Booking)
    (hr : webhookRef pl = some r) (hrne : r ≠ "")
    (hst : pl.status = some "completed")
    (hfind : findPaymentByRef db r = some p)
    (hterm : ¬(p.status = .completed ∨ p.status = .refunded))
    (hw1 : w.paymentOk = true) (hw2 : w.bookingOk = true)
    (hb : db.bookings.find? (fun x => x.id = p.booking_id) = some b)
    (hbs : b.status ≠ .confirmed)
    (hguard : db.rides.all (fun rd =>
      rd.id ≠ b.ride_id ∨
      (0 ≤ rd.available_seats - b.seats_booked ∧
        rd.available_seats - b.seats_booked ≤ rd.total_seats)) = true) :
    processWebhook db w pl =
      ({ rides := markFullIfEmpty b.ride_id (db.rides.map (fun rd =>
            if rd.id = b.ride_id then
              { rd with
                  available_seats := rd.available_seats - b.seats_booked }
            else rd)),
         bookings := db.bookings.map (fun x =>
            if x.id = p.booking_id then { x with status := .confirmed }
            else x),
         payments := db.payments.map (fun q =>
            if q.id = p.id then
              { q with status := .completed,
                       pandora_transaction_id := some r }
            else q) },
       ⟨200, true, "Webhook processed successfully"⟩) := by
  have hfr : falsy (some r) = false := by
    have : r.isEmpty = false := by
      rw [Bool.eq_false_iff]
      intro hemp
      exact hrne ((String.isEmpty_iff r).mp hemp)
    simpa [falsy] using this
  have hub : updateBookingStatus
      (updatePayment db p.id (fun q =>
        { q with status := .completed, pandora_transaction_id := some r }))
      p.booking_id .confirmed =
      some { rides := markFullIfEmpty b.ride_id (db.rides.map (fun rd =>
               if rd.id = b.ride_id then
                 { rd with
                     available_seats := rd.available_seats - b.seats_booked }
               else rd)),
             bookings := db.bookings.map (fun x =>
               if x.id = p.booking_id then { x with status := .confirmed }
               else x),
             payments := db.payments.map (fun q =>
               if q.id = p.id then
                 { q with status := .completed,
                          pandora_transaction_id := some r }
               else q) } := by
    unfold updateBookingStatus updatePayment
    simp only [hb]
    unfold update_available_seats
    simp only [decRideSeats, hguard, if_true]
    simp [hbs]
  unfold processWebhook
  rw [hr, hst]
  have hfc : falsy (some "completed") = false := by decide
  simp only [hfr, hfc, Bool.false_eq_true, or_self, if_false,
    Option.getD_some]
  rw [hfind]
  simp [hterm, hw1, hw2, hub]

/-- Status of the payment row holding the given reference. -/
def paymentStatusByRef? (db : DB) (ref : String) : Option PaymentStatus :=
  (findPaymentByRef db ref).map (fun p => p.status)

theorem find?_map_self {α : Type} (g : α → α) (q : α → Bool)
    (hg : ∀ a, q (g a) = q a) (l : List α) (a : α)
    (h : l.find? q = some a) : (l.map g).find? q = some (g a) := by
  rw [find?_map_comm g q hg l, h, Option.map_some']

/-- The idempotency gate of the webhook handler: a payment already
`completed` or `refunded` short-circuits to a success answer with no
write. -/
theorem webhook_gate (db : DB) (w : WebhookWrites) (pl : WebhookPayload)
    (r : String) (p : Payment)
    (hr : webhookRef pl = some r) (hrne : r ≠ "")
    (hstf : falsy pl.status = false)
    (hfind : findPaymentByRef db r = some p)
    (hterm : p.status = .completed ∨ p.status = .refunded) :
    processWebhook db w pl = (db, ⟨200, true, "Payment already processed"⟩) := by
  have hfr : falsy (some r) = false := by
    have : r.isEmpty = false := by
      rw [Bool.eq_false_iff]
      intro hemp
      exact hrne ((String.isEmpty_iff r).mp hemp)
    simpa [falsy] using this
  unfold processWebhook
  rw [hr]
  simp only [hfr, hstf, Bool.false_eq_true, or_self, if_false,
    Option.getD_some]
  rw [hfind]
  simp [hterm]

/-- `updateBookingStatus` (error-checked or not) never touches the
`payments` table. -/
theorem updateBookingStatus_payments (db : DB) (bid : Nat)
    (ns : BookingStatus) :
    ((updateBookingStatus db bid ns).getD db).payments = db.payments := by
  unfold updateBookingStatus
  cases h : db.bookings.find? (fun b => b.id = bid) with
  | none => rfl
  | some old =>
    cases h2 : update_available_seats old { old with status := ns }
        db.rides with
    | none => simp [h2]
    | some rides2 => simp [h2]

/-- The refund payment row inserted by the process-refund handler. -/
def refundInsertRow (bid : Nat) (op : Payment) (refundTo : Party)
    (rec : String × Nat) (newPid : Nat) (refundRef : String) : Payment :=
  { id := newPid, booking_id := bid, user_id := rec.2,
    amount := op.amount, payment_type := refundPaymentType refundTo,
    status := .pending, pandora_reference := refundRef,
    pandora_transaction_id := none, phone_number := rec.1,
    error_message := none, retry_count := 0 }

/-- Computation of the process-refund handler when the gateway rejects the
disbursement: the refund payment is inserted and marked `failed`, the
response is the HTTP 400 error — and nothing else changes. -/
theorem refund_gateway_fail_shape
    (db : DB) (uid bid : Nat) (ctype : Party) (now : Int)
    (driverPhone : Option String) (newPid : Nat) (refundRef : String)
    (msg : Option String) (booking : Booking) (ride : Ride) (op : Payment)
    (rec : String × Nat)
    (hb : db.bookings.find?
      (fun x => x.id = bid ∧ x.status = .confirmed) = some booking)
    (hride : db.rides.find? (fun rd => rd.id = booking.ride_id) = some ride)
    (hauth1 : ¬(ctype = .driver ∧ ride.driver_id ≠ uid))
    (hauth2 : ¬(ctype = .passenger ∧ booking.passenger_id ≠ uid))
    (hop : (db.payments.filter (fun p => p.booking_id = bid)).find?
      (fun p => p.status = .completed ∧ 0 < p.amount) = some op)
    (hrec : resolveRecipient (refundRecipient ctype
      (ride.departure_time - now)) op booking ride driverPhone = some rec)
    (hfresh : db.payments.any
      (fun p => p.pandora_reference = refundRef) = false) :
    processRefund db uid bid ctype now driverPhone newPid refundRef
      (.apiFail msg) =
      ({ db with payments :=
          (db.payments ++
            [refundInsertRow bid op
              (refundRecipient ctype (ride.departure_time - now)) rec
              newPid refundRef]).map (fun p =>
            if p.id = newPid then
              { p with status := .failed,
                       error_message :=
                         some (msg.getD "Refund initiation failed") }
            else p) },
       refundErr "Refund initiation failed") := by
  unfold processRefund
  simp only [hb, hride, hop, hrec]
  rw [if_neg hauth1, if_neg hauth2]
  simp [hfresh, refundInsertRow, updatePayment]

theorem find?_id_append_map (l : List Payment) (row : Payment)
    (g : Payment → Payment) (hg : ∀ p, (g p).id = p.id) (pid : Nat)
    (a : Payment) (h : l.find? (fun p => p.id = pid) = some a) :
    ((l ++ [row]).map g).find? (fun p => p.id = pid) = some (g a) := by
  rw [List.map_append, List.find?_append,
    find?_map_self g (fun p => p.id = pid)
      (fun p => by simp only [hg p]) l a h]
  rfl

theorem find?_id_append_new (l : List Payment) (row : Payment)
    (g : Payment → Payment) (hg : ∀ p, (g p).id = p.id) (pid : Nat)
    (hfreshl : ∀ p ∈ l, p.id ≠ pid) (hrow : row.id = pid) :
    ((l ++ [row]).map g).find? (fun p => p.id = pid) = some (g row) := by
  rw [List.map_append, List.find?_append]
  have h1 : (l.map g).find? (fun p => p.id = pid) = none := by
    rw [find?_map_comm g (fun p => p.id = pid)
      (fun p => by simp only [hg p]) l,
      List.find?_eq_none.mpr (fun a ha => by
        simpa using hfreshl a ha)]
    rfl
  rw [h1]
  simp [hg, hrow]

/-! ## Claim C3 -/

/-- C3: for every ride and every reachable state under any sequence of
booking confirmations and cancellations, `0 ≤ available_seats ≤
total_seats` holds before and after each operation (any intermediate state
is `runSeatOps db ops` for a prefix `ops`, so the single statement covers
every step). -/
theorem seat_inventory_invariant (db : DB) (ops : List SeatOp)
    (h : seatInv db) : seatInv (runSeatOps db ops) := by
  induction ops generalizing db with
  | nil => simpa [runSeatOps] using h
  | cons op t ih =>
    have h1 := applySeatOp_inv op h
    simpa [runSeatOps, List.foldl_cons] using ih _ h1

/-- Witness for C3 at a concrete store and operation sequence. -/
theorem seat_inventory_invariant_witness :
    seatInv wDB ∧
    seatInv (runSeatOps wDB
      [SeatOp.confirm 2, SeatOp.cancelByPassenger 2, SeatOp.confirm 2,
        SeatOp.confirm 2]) :=
  ⟨by decide, seat_inventory_invariant wDB _ (by decide)⟩

/-! ## Claim C1 -/

/-- C1: webhook idempotence.  Delivering a `completed` payload for a
not-yet-terminal payment confirms the booking and decrements the seats
once; afterwards, any further webhook notification carrying the same
reference (whatever its status and whatever the write outcomes) performs
no write at all and answers success, because the stored payment is now
`completed`.  Hence the identical payload delivered twice yields exactly
one seat decrement and one `pending_payment → confirmed` transition. -/
theorem webhook_idempotent_at_most_once
    (db : DB) (pl : WebhookPayload) (r : String) (p : Payment) (b : Booking)
    (ride : Ride)
    (hr : webhookRef pl = some r) (hrne : r ≠ "")
    (hst : pl.status = some "completed")
    (hfind : findPaymentByRef db r = some p)
    (hterm : ¬(p.status = .completed ∨ p.status = .refunded))
    (hb : db.bookings.find? (fun x => x.id = p.booking_id) = some b)
    (hbs : b.status = .pending_payment)
    (hride : db.rides.find? (fun rd => rd.id = b.ride_id) = some ride)
    (hru : ∀ rd ∈ db.rides, rd.id = b.ride_id → rd = ride)
    (hcap : b.seats_booked ≤ ride.available_seats)
    (hinv : ride.available_seats ≤ ride.total_seats)
    (hs0 : 0 ≤ b.seats_booked) :
    bookingStatus? (processWebhook db allWritesOk pl).1 p.booking_id =
      some .confirmed ∧
    rideSeats? (processWebhook db allWritesOk pl).1 b.ride_id =
      some (ride.available_seats - b.seats_booked) ∧
    ∀ (pl2 : WebhookPayload) (w2 : WebhookWrites),
      webhookRef pl2 = some r → falsy pl2.status = false →
      processWebhook (processWebhook db allWritesOk pl).1 w2 pl2 =
        ((processWebhook db allWritesOk pl).1,
          ⟨200, true, "Payment already processed"⟩) := by
  have hbid : b.id = p.booking_id := by
    have := List.find?_some hb
    exact of_decide_eq_true this
  have hrid : ride.id = b.ride_id := by
    have := List.find?_some hride
    exact of_decide_eq_true this
  have hguard : db.rides.all (fun rd =>
      rd.id ≠ b.ride_id ∨
      (0 ≤ rd.available_seats - b.seats_booked ∧
        rd.available_seats - b.seats_booked ≤ rd.total_seats)) = true := by
    rw [List.all_eq_true]
    intro rd hrd
    by_cases hid : rd.id = b.ride_id
    · have heq := hru rd hrd hid
      subst heq
      refine decide_eq_true (Or.inr ⟨by omega, by omega⟩)
    · exact decide_eq_true (Or.inl hid)
  have hbs' : b.status ≠ .confirmed := by rw [hbs]; intro h; cases h
  have hshape := webhook_completed_shape db allWritesOk pl r p b hr hrne hst
    hfind hterm rfl rfl hb hbs' hguard
  rw [hshape]
  refine ⟨?_, ?_, ?_⟩
  · -- booking transitioned to confirmed
    unfold bookingStatus?
    rw [find?_map_self _ _ (fun x => by by_cases h : x.id = p.booking_id <;>
      simp [h]) _ b hb]
    simp [hbid]
  · -- seats decremented once
    unfold rideSeats? markFullIfEmpty
    rw [find?_map_self _ _ (fun x => by
        by_cases h : x.id = b.ride_id ∧ x.available_seats = 0 <;>
          simp [h]) _ _
      (find?_map_self _ _ (fun x => by by_cases h : x.id = b.ride_id <;>
        simp [h]) _ ride hride)]
    by_cases hz : ride.available_seats - b.seats_booked = 0 <;>
      simp [hrid, hz]
  · -- every further delivery for this reference is a no-op success
    intro pl2 w2 hr2 hst2
    have hfind' : db.payments.find?
        (fun q => q.pandora_reference = r) = some p := hfind
    have hfind2 := find?_map_self
      (fun q => if q.id = p.id then
        { q with status := PaymentStatus.completed,
                 pandora_transaction_id := some r } else q)
      (fun q => q.pandora_reference = r)
      (fun q => by by_cases h : q.id = p.id <;> simp [h]) _ p hfind'
    simp only [if_pos rfl] at hfind2
    exact webhook_gate _ w2 pl2 r _ hr2 hrne hst2 hfind2 (Or.inl rfl)

/-- Witness for C1 at the concrete sample store. -/
theorem webhook_idempotent_at_most_once_witness :
    bookingStatus? (processWebhook wDB allWritesOk wPayload).1
      wPayment.booking_id = some .confirmed ∧
    rideSeats? (processWebhook wDB allWritesOk wPayload).1
      wBooking.ride_id =
      some (wRide.available_seats - wBooking.seats_booked) ∧
    ∀ (pl2 : WebhookPayload) (w2 : WebhookWrites),
      webhookRef pl2 = some "REF1" → falsy pl2.status = false →
      processWebhook (processWebhook wDB allWritesOk wPayload).1 w2 pl2 =
        ((processWebhook wDB allWritesOk wPayload).1,
          ⟨200, true, "Payment already processed"⟩) :=
  webhook_idempotent_at_most_once wDB wPayload "REF1" wPayment wBooking
    wRide (by decide) (by decide) rfl (by decide) (by decide) (by decide)
    rfl (by decide) (by decide) (by decide) (by decide) (by decide)

/-! ## Claim C9 -/

/-- C9: `failed` is not a terminal gate.  A payment stored as `failed` (or
`pending`/`processing`) is still processed by a later `completed` webhook:
the payment transitions to `completed` and the owning booking to
`confirmed`; only `completed` and `refunded` short-circuit. -/
theorem webhook_failed_not_terminal
    (db : DB) (pl : WebhookPayload) (r : String) (p : Payment) (b : Booking)
    (ride : Ride)
    (hr : webhookRef pl = some r) (hrne : r ≠ "")
    (hst : pl.status = some "completed")
    (hfind : findPaymentByRef db r = some p)
    (hps : p.status = .failed ∨ p.status = .pending ∨
      p.status = .processing)
    (hb : db.bookings.find? (fun x => x.id = p.booking_id) = some b)
    (hbs : b.status = .pending_payment)
    (hride : db.rides.find? (fun rd => rd.id = b.ride_id) = some ride)
    (hru : ∀ rd ∈ db.rides, rd.id = b.ride_id → rd = ride)
    (hcap : b.seats_booked ≤ ride.available_seats)
    (hinv : ride.available_seats ≤ ride.total_seats)
    (hs0 : 0 ≤ b.seats_booked) :
    paymentStatusByRef? (processWebhook db allWritesOk pl).1 r =
      some .completed ∧
    bookingStatus? (processWebhook db allWritesOk pl).1 p.booking_id =
      some .confirmed ∧
    (processWebhook db allWritesOk pl).2 =
      ⟨200, true, "Webhook processed successfully"⟩ := by
  have hterm : ¬(p.status = .completed ∨ p.status = .refunded) := by
    rcases hps with h | h | h <;> rw [h] <;> rintro (hc | hc) <;> cases hc
  have hbid : b.id = p.booking_id := by
    have := List.find?_some hb
    exact of_decide_eq_true this
  have hguard : db.rides.all (fun rd =>
      rd.id ≠ b.ride_id ∨
      (0 ≤ rd.available_seats - b.seats_booked ∧
        rd.available_seats - b.seats_booked ≤ rd.total_seats)) = true := by
    rw [List.all_eq_true]
    intro rd hrd
    by_cases hid : rd.id = b.ride_id
    · have heq := hru rd hrd hid
      subst heq
      refine decide_eq_true (Or.inr ⟨by omega, by omega⟩)
    · exact decide_eq_true (Or.inl hid)
  have hbs' : b.status ≠ .confirmed := by rw [hbs]; intro h; cases h
  have hshape := webhook_completed_shape db allWritesOk pl r p b hr hrne hst
    hfind hterm rfl rfl hb hbs' hguard
  rw [hshape]
  refine ⟨?_, ?_, rfl⟩
  · unfold paymentStatusByRef? findPaymentByRef
    have hfind' : db.payments.find?
        (fun q => q.pandora_reference = r) = some p := hfind
    have hfind2 := find?_map_self
      (fun q => if q.id = p.id then
        { q with status := PaymentStatus.completed,
                 pandora_transaction_id := some r } else q)
      (fun q => q.pandora_reference = r)
      (fun q => by by_cases h : q.id = p.id <;> simp [h]) _ p hfind'
    rw [hfind2]
    simp
  · unfold bookingStatus?
    rw [find?_map_self _ _ (fun x => by by_cases h : x.id = p.booking_id <;>
      simp [h]) _ b hb]
    simp [hbid]

/-- Witness for C9: a concrete store whose payment is `failed`. -/
theorem webhook_failed_not_terminal_witness :
    paymentStatusByRef?
      (processWebhook ⟨[wRide], [wBooking],
        [{ wPayment with status := .failed }]⟩ allWritesOk wPayload).1
      "REF1" = some .completed ∧
    bookingStatus?
      (processWebhook ⟨[wRide], [wBooking],
        [{ wPayment with status := .failed }]⟩ allWritesOk wPayload).1
      ({ wPayment with status := PaymentStatus.failed } : Payment).booking_id =
      some .confirmed ∧
    (processWebhook ⟨[wRide], [wBooking],
      [{ wPayment with status := .failed }]⟩ allWritesOk wPayload).2 =
      ⟨200, true, "Webhook processed successfully"⟩ :=
  webhook_failed_not_terminal
    ⟨[wRide], [wBooking], [{ wPayment with status := .failed }]⟩
    wPayload "REF1" { wPayment with status := .failed } wBooking wRide
    (by decide) (by decide) rfl (by decide) (Or.inl rfl) (by decide) rfl
    (by decide) (by decide) (by decide) (by decide) (by decide)

/-! ## Claim C5 -/

/-- Counterexample to C5: at a concrete store whose payment-status write
fails (an internal error while applying the mutation), the handler answers
HTTP 200 — a success status, not a retry-inducing server error — with the
intended mutation not performed. -/
theorem webhook_internal_error_not_server_error_counterexample :
    (processWebhook wDB ⟨false, true, true⟩ wPayload).2.httpStatus = 200 ∧
    (processWebhook wDB ⟨false, true, true⟩ wPayload).2.success = false ∧
    (processWebhook wDB ⟨false, true, true⟩ wPayload).1 = wDB := by
  refine ⟨?_, ?_, ?_⟩ <;> decide

/-- C5 amended: an internal error while applying the completed-branch
mutation is caught and answered with HTTP 200 and `success: false` in the
JSON body (the handler never returns a retry-inducing status); a write
error in the failed/cancelled/expired branch is ignored outright and even
answers `success: true`.  The store is left exactly at the point of the
failed write. -/
theorem webhook_internal_error_answers_200
    (db : DB) (w : WebhookWrites) (pl : WebhookPayload) (r : String)
    (p : Payment)
    (hr : webhookRef pl = some r) (hrne : r ≠ "")
    (hfind : findPaymentByRef db r = some p)
    (hterm : ¬(p.status = .completed ∨ p.status = .refunded)) :
    (pl.status = some "completed" → w.paymentOk = false →
      processWebhook db w pl =
        (db, ⟨200, false, "Failed to update payment status"⟩)) ∧
    (pl.status = some "completed" → w.paymentOk = true →
      w.bookingOk = false →
      processWebhook db w pl =
        (updatePayment db p.id (fun q =>
          { q with status := .completed,
                   pandora_transaction_id := some r }),
         ⟨200, false, "Failed to confirm booking"⟩)) ∧
    (∀ st : String, pl.status = some st →
      (st = "failed" ∨ st = "cancelled" ∨ st = "expired") →
      w.failedOk = false →
      processWebhook db w pl =
        (db, ⟨200, true, "Webhook processed successfully"⟩)) := by
  have hfr : falsy (some r) = false := by
    have : r.isEmpty = false := by
      rw [Bool.eq_false_iff]
      intro hemp
      exact hrne ((String.isEmpty_iff r).mp hemp)
    simpa [falsy] using this
  refine ⟨?_, ?_, ?_⟩
  · intro hst hw1
    unfold processWebhook
    rw [hr, hst]
    have hfc : falsy (some "completed") = false := by decide
    simp only [hfr, hfc, Bool.false_eq_true, or_self, if_false,
      Option.getD_some]
    rw [hfind]
    simp [hterm, hw1]
  · intro hst hw1 hw2
    unfold processWebhook
    rw [hr, hst]
    have hfc : falsy (some "completed") = false := by decide
    simp only [hfr, hfc, Bool.false_eq_true, or_self, if_false,
      Option.getD_some]
    rw [hfind]
    simp [hterm, hw1, hw2]
  · intro st hst hstv hw3
    unfold processWebhook
    rw [hr, hst]
    have hfc : falsy (some st) = false := by
      rcases hstv with h | h | h <;> subst h <;> decide
    simp only [hfr, hfc, Bool.false_eq_true, or_self, if_false,
      Option.getD_some]
    rw [hfind]
    have hne : st ≠ "completed" := by
      rcases hstv with h | h | h <;> subst h <;> decide
    simp [hterm, hne, hstv, hw3]

/-- Witness for the amended C5 at concrete stores: a failing
completed-branch write answers 200/`success:false`, and a failing
failed-branch write answers 200/`success:true`. -/
theorem webhook_internal_error_answers_200_witness :
    (processWebhook wDB ⟨false, true, true⟩ wPayload =
      (wDB, ⟨200, false, "Failed to update payment status"⟩)) ∧
    (processWebhook wDB ⟨true, true, false⟩
        ⟨some "REF1", none, some "failed", none, none⟩ =
      (wDB, ⟨200, true, "Webhook processed successfully"⟩)) :=
  ⟨(webhook_internal_error_answers_200 wDB ⟨false, true, true⟩ wPayload
      "REF1" wPayment (by decide) (by decide) (by decide)
      (by decide)).1 rfl rfl,
   (webhook_internal_error_answers_200 wDB ⟨true, true, false⟩
      ⟨some "REF1", none, some "failed", none, none⟩
      "REF1" wPayment (by decide) (by decide) (by decide)
      (by decide)).2.2 "failed" rfl (Or.inl rfl) rfl⟩

/-! ## Claim C7 -/

/-- A sample cancelled ride with one free seat, used to refute C7. -/
def cRide : Ride := ⟨1, 10, 7200000, 5000, 1, 3, .cancelled⟩

/-- A confirmed booking of 2 seats on the cancelled ride `cRide`. -/
def cBooking : Booking := ⟨2, 1, 20, 2, 1000, .confirmed⟩

/-- Counterexample to C7: releasing the seats of a confirmed booking on a
ride whose status is `cancelled` rewrites the ride's status to `active` —
the trigger's release branch sets `status = 'active'` unconditionally, so a
cancelled ride's status *is* changed by a release. -/
theorem release_changes_cancelled_ride_counterexample :
    rideStatus? ⟨[cRide], [cBooking], []⟩ 1 = some .cancelled ∧
    rideStatus?
      (applySeatOp ⟨[cRide], [cBooking], []⟩ (SeatOp.cancelByPassenger 2))
      1 = some .active ∧
    rideSeats?
      (applySeatOp ⟨[cRide], [cBooking], []⟩ (SeatOp.cancelByPassenger 2))
      1 = some 3 := by
  refine ⟨?_, ?_, ?_⟩ <;> decide

/-- C7 amended: on every seat release (a confirmed booking transitioning
to a cancelled variant) that commits, `available_seats` is incremented by
the booking's `seats_booked` and the ride's status is set to `active`
unconditionally — whatever the previous status was, including `cancelled`
and statuses other than `full`. -/
theorem release_increments_and_sets_active
    (old nb : Booking) (rides rides2 : List Ride) (r : Ride)
    (hob : old.status = .confirmed)
    (hnb : nb.status = .cancelled_by_passenger ∨
      nb.status = .cancelled_by_driver)
    (h : update_available_seats old nb rides = some rides2)
    (hr : rides.find? (fun rd => rd.id = nb.ride_id) = some r) :
    rides2.find? (fun rd => rd.id = nb.ride_id) =
      some { r with
        available_seats := r.available_seats + old.seats_booked,
        status := .active } := by
  have hc1 : ¬(nb.status = .confirmed ∧ old.status ≠ .confirmed) := by
    rintro ⟨h1, -⟩
    rcases hnb with h2 | h2 <;> rw [h2] at h1 <;> cases h1
  unfold update_available_seats at h
  rw [if_neg hc1, if_pos ⟨hnb, hob⟩] at h
  unfold releaseRideSeats at h
  split at h
  · cases h
    have hrid : r.id = nb.ride_id := by
      have := List.find?_some hr
      exact of_decide_eq_true this
    have := find?_map_self
      (fun rd => if rd.id = nb.ride_id then
        { rd with available_seats := rd.available_seats + old.seats_booked,
                  status := RideStatus.active }
        else rd)
      (fun rd => rd.id = nb.ride_id)
      (fun rd => by by_cases hh : rd.id = nb.ride_id <;> simp [hh])
      rides r hr
    simpa [hrid] using this
  · exact absurd h (by simp)

/-- Witness for the amended C7 at the concrete cancelled ride. -/
theorem release_increments_and_sets_active_witness :
    update_available_seats cBooking
      { cBooking with status := .cancelled_by_passenger } [cRide] =
      some [{ cRide with available_seats := 3, status := .active }] ∧
    [{ cRide with available_seats := 3, status := .active }].find?
      (fun rd =>
        rd.id = ({ cBooking with
          status := BookingStatus.cancelled_by_passenger } : Booking).ride_id) =
      some { cRide with
        available_seats := cRide.available_seats + cBooking.seats_booked,
        status := .active } :=
  ⟨by decide,
   release_increments_and_sets_active cBooking
     { cBooking with status := .cancelled_by_passenger } [cRide] _ cRide
     rfl (Or.inl rfl) (by decide) (by decide)⟩

/-! ## Claim C4 -/

/-- A sample ride with a confirmed 2-seat booking already subtracted. -/
def rRide : Ride := ⟨1, 10, 7200000, 5000, 1, 3, .active⟩

/-- The confirmed booking being cancelled in the refund scenarios. -/
def rBooking : Booking := ⟨2, 1, 20, 2, 1000, .confirmed⟩

/-- The completed booking-fee payment funding `rBooking`. -/
def rPayment : Payment :=
  ⟨3, 2, 20, 1000, .booking_fee, .completed, "REF1", none,
    "256771234567", none, 0⟩

/-- The store for the refund scenarios. -/
def rDB : DB := ⟨[rRide], [rBooking], [rPayment]⟩

/-- Counterexample to C4: at a concrete confirmed booking whose gateway
disbursement call fails, the refund payment is indeed marked `failed`, but
the booking *stays* `confirmed` (not `cancelled_by_passenger`), the
original payment *stays* `completed` (not `refunded`), and
`available_seats` is *not* restored — the handler throws before reaching
those updates. -/
theorem refund_fail_leaves_booking_confirmed_counterexample :
    paymentStatusById?
      (processRefund rDB 20 2 .passenger 0 (some "256700000000") 4
        "REFUND1" (.apiFail none)).1 4 = some .failed ∧
    bookingStatus?
      (processRefund rDB 20 2 .passenger 0 (some "256700000000") 4
        "REFUND1" (.apiFail none)).1 2 = some .confirmed ∧
    paymentStatusById?
      (processRefund rDB 20 2 .passenger 0 (some "256700000000") 4
        "REFUND1" (.apiFail none)).1 3 = some .completed ∧
    rideSeats?
      (processRefund rDB 20 2 .passenger 0 (some "256700000000") 4
        "REFUND1" (.apiFail none)).1 1 = some 1 ∧
    (processRefund rDB 20 2 .passenger 0 (some "256700000000") 4
        "REFUND1" (.apiFail none)).2.httpStatus = 400 := by
  refine ⟨?_, ?_, ?_, ?_, ?_⟩ <;> decide

/-- C4 amended: when the gateway disbursement call fails, the refund
Payment is marked `failed` and the handler aborts with an HTTP 400 error;
the Booking remains `confirmed`, the original booking-fee Payment remains
`completed`, and `available_seats` is not restored.  The cancellation,
refunded-marking and seat release happen only when the disbursement call
succeeds. -/
theorem refund_gateway_failure_aborts_cancellation
    (db : DB) (uid bid : Nat) (ctype : Party) (now : Int)
    (driverPhone : Option String) (newPid : Nat) (refundRef : String)
    (msg : Option String) (booking : Booking) (ride : Ride) (op : Payment)
    (rec : String × Nat)
    (hb : db.bookings.find?
      (fun x => x.id = bid ∧ x.status = .confirmed) = some booking)
    (hride : db.rides.find? (fun rd => rd.id = booking.ride_id) = some ride)
    (hauth1 : ¬(ctype = .driver ∧ ride.driver_id ≠ uid))
    (hauth2 : ¬(ctype = .passenger ∧ booking.passenger_id ≠ uid))
    (hop : (db.payments.filter (fun p => p.booking_id = bid)).find?
      (fun p => p.status = .completed ∧ 0 < p.amount) = some op)
    (hrec : resolveRecipient (refundRecipient ctype
      (ride.departure_time - now)) op booking ride driverPhone = some rec)
    (hfresh : db.payments.any
      (fun p => p.pandora_reference = refundRef) = false)
    (hbu : db.bookings.find? (fun x => x.id = bid) = some booking)
    (hopu : db.payments.find? (fun p => p.id = op.id) = some op)
    (hpidfresh : ∀ p ∈ db.payments, p.id ≠ newPid) :
    (processRefund db uid bid ctype now driverPhone newPid refundRef
      (.apiFail msg)).2 = refundErr "Refund initiation failed" ∧
    paymentStatusById? (processRefund db uid bid ctype now driverPhone
      newPid refundRef (.apiFail msg)).1 newPid = some .failed ∧
    bookingStatus? (processRefund db uid bid ctype now driverPhone newPid
      refundRef (.apiFail msg)).1 bid = some .confirmed ∧
    paymentStatusById? (processRefund db uid bid ctype now driverPhone
      newPid refundRef (.apiFail msg)).1 op.id = some .completed ∧
    (processRefund db uid bid ctype now driverPhone newPid refundRef
      (.apiFail msg)).1.rides = db.rides := by
  have hshape := refund_gateway_fail_shape db uid bid ctype now driverPhone
    newPid refundRef msg booking ride op rec hb hride hauth1 hauth2 hop
    hrec hfresh
  rw [hshape]
  have hbprop : booking.id = bid ∧ booking.status = .confirmed := by
    have := List.find?_some hb
    exact of_decide_eq_true this
  have hopprop : op.status = .completed ∧ 0 < op.amount := by
    have := List.find?_some hop
    exact of_decide_eq_true this
  have hopne : op.id ≠ newPid := by
    have hmem1 : op ∈ db.payments.filter (fun p => p.booking_id = bid) :=
      List.mem_of_find?_eq_some hop
    exact hpidfresh op (List.mem_of_mem_filter hmem1)
  refine ⟨rfl, ?_, ?_, ?_, rfl⟩
  · unfold paymentStatusById?
    rw [find?_id_append_new db.payments _ _
      (fun p => by by_cases h : p.id = newPid <;> simp [h]) newPid
      hpidfresh rfl]
    simp [refundInsertRow]
  · unfold bookingStatus?
    rw [hbu]
    simp [hbprop.2]
  · unfold paymentStatusById?
    rw [find?_id_append_map db.payments _ _
      (fun p => by by_cases h : p.id = newPid <;> simp [h]) op.id op hopu]
    simp [hopne, hopprop.1]

/-- Witness for the amended C4 at the concrete refund scenario. -/
theorem refund_gateway_failure_aborts_cancellation_witness :
    (processRefund rDB 20 2 .passenger 0 (some "256700000000") 4 "REFUND1"
      (.apiFail none)).2 = refundErr "Refund initiation failed" ∧
    paymentStatusById? (processRefund rDB 20 2 .passenger 0
      (some "256700000000") 4 "REFUND1" (.apiFail none)).1 4 =
      some .failed ∧
    bookingStatus? (processRefund rDB 20 2 .passenger 0
      (some "256700000000") 4 "REFUND1" (.apiFail none)).1 2 =
      some .confirmed ∧
    paymentStatusById? (processRefund rDB 20 2 .passenger 0
      (some "256700000000") 4 "REFUND1" (.apiFail none)).1
      rPayment.id = some .completed ∧
    (processRefund rDB 20 2 .passenger 0 (some "256700000000") 4 "REFUND1"
      (.apiFail none)).1.rides = rDB.rides :=
  refund_gateway_failure_aborts_cancellation rDB 20 2 .passenger 0
    (some "256700000000") 4 "REFUND1" none rBooking rRide rPayment
    ("256771234567", 20) (by decide) (by decide) (by decide) (by decide)
    (by decide) (by decide) (by decide) (by decide) (by decide) (by decide)

/-! ## Refund success-path computation -/

theorem refund_ok_core
    (db : DB) (uid bid : Nat) (ctype : Party) (now : Int)
    (driverPhone : Option String) (newPid : Nat) (refundRef : String)
    (txid : Option String) (booking : Booking) (ride : Ride) (op : Payment)
    (rec : String × Nat)
    (hb : db.bookings.find?
      (fun x => x.id = bid ∧ x.status = .confirmed) = some booking)
    (hride : db.rides.find? (fun rd => rd.id = booking.ride_id) = some ride)
    (hauth1 : ¬(ctype = .driver ∧ ride.driver_id ≠ uid))
    (hauth2 : ¬(ctype = .passenger ∧ booking.passenger_id ≠ uid))
    (hop : (db.payments.filter (fun p => p.booking_id = bid)).find?
      (fun p => p.status = .completed ∧ 0 < p.amount) = some op)
    (hrec : resolveRecipient (refundRecipient ctype
      (ride.departure_time - now)) op booking ride driverPhone = some rec)
    (hfresh : db.payments.any
      (fun p => p.pandora_reference = refundRef) = false) :
    (processRefund db uid bid ctype now driverPhone newPid refundRef
      (.ok txid)).2 =
      ⟨200, true, none,
        some (refundRecipient ctype (ride.departure_time - now)),
        some op.amount, some refundRef⟩ ∧
    (processRefund db uid bid ctype now driverPhone newPid refundRef
      (.ok txid)).1.payments =
      ((db.payments ++
        [refundInsertRow bid op
          (refundRecipient ctype (ride.departure_time - now)) rec newPid
          refundRef]).map (fun p =>
          if p.id = newPid then
            { p with status := .processing,
                     pandora_transaction_id := txid }
          else p)).map (fun p =>
          if p.id = op.id then { p with status := .refunded } else p) := by
  unfold processRefund
  simp only [hb, hride, hop, hrec]
  rw [if_neg hauth1, if_neg hauth2]
  simp only [hfresh, Bool.false_eq_true, if_false]
  constructor
  · trivial
  · show (updatePayment _ op.id _).payments = _
    unfold updatePayment
    rw [updateBookingStatus_payments]
    simp [updatePayment, refundInsertRow]

/-- The `payment_type` of the refund payment created by a successful
Cancel. -/
theorem refund_ok_new_payment_type
    (db : DB) (uid bid : Nat) (ctype : Party) (now : Int)
    (driverPhone : Option String) (newPid : Nat) (refundRef : String)
    (txid : Option String) (booking : Booking) (ride : Ride) (op : Payment)
    (rec : String × Nat)
    (hb : db.bookings.find?
      (fun x => x.id = bid ∧ x.status = .confirmed) = some booking)
    (hride : db.rides.find? (fun rd => rd.id = booking.ride_id) = some ride)
    (hauth1 : ¬(ctype = .driver ∧ ride.driver_id ≠ uid))
    (hauth2 : ¬(ctype = .passenger ∧ booking.passenger_id ≠ uid))
    (hop : (db.payments.filter (fun p => p.booking_id = bid)).find?
      (fun p => p.status = .completed ∧ 0 < p.amount) = some op)
    (hrec : resolveRecipient (refundRecipient ctype
      (ride.departure_time - now)) op booking ride driverPhone = some rec)
    (hfresh : db.payments.any
      (fun p => p.pandora_reference = refundRef) = false)
    (hpidfresh : ∀ p ∈ db.payments, p.id ≠ newPid) :
    paymentTypeById? (processRefund db uid bid ctype now driverPhone newPid
      refundRef (.ok txid)).1 newPid =
      some (refundPaymentType
        (refundRecipient ctype (ride.departure_time - now))) ∧
    paymentAmountById? (processRefund db uid bid ctype now driverPhone
      newPid refundRef (.ok txid)).1 newPid = some op.amount := by
  have hcore := refund_ok_core db uid bid ctype now driverPhone newPid
    refundRef txid booking ride op rec hb hride hauth1 hauth2 hop hrec
    hfresh
  have hopne : op.id ≠ newPid := by
    have hmem1 : op ∈ db.payments.filter (fun p => p.booking_id = bid) :=
      List.mem_of_find?_eq_some hop
    exact hpidfresh op (List.mem_of_mem_filter hmem1)
  have hinner := find?_id_append_new db.payments
    (refundInsertRow bid op
      (refundRecipient ctype (ride.departure_time - now)) rec newPid
      refundRef)
    (fun (p : Payment) => if p.id = newPid then
      { p with status := PaymentStatus.processing,
               pandora_transaction_id := txid } else p)
    (fun p => by by_cases h : p.id = newPid <;> simp [h]) newPid
    hpidfresh rfl
  have houter := find?_map_self
    (fun (p : Payment) => if p.id = op.id then
      { p with status := PaymentStatus.refunded } else p)
    (fun p => p.id = newPid)
    (fun p => by by_cases h : p.id = op.id <;> simp [h]) _ _ hinner
  constructor
  · unfold paymentTypeById?
    rw [hcore.2, houter]
    simp [refundInsertRow, hopne.symm]
  · unfold paymentAmountById?
    rw [hcore.2, houter]
    simp [refundInsertRow, hopne.symm]

/-! ## Claim C6 -/

/-- C6: refund routing.  For a Cancel that reaches the gateway and
succeeds: a driver cancellation refunds the passenger regardless of time
to departure; a passenger cancellation refunds the passenger when more
than one hour (3 600 000 ms) remains before departure, and the driver
otherwise — the first matching rule of the if-chain winning. -/
theorem refund_routing
    (db : DB) (uid bid : Nat) (ctype : Party) (now : Int)
    (driverPhone : Option String) (newPid : Nat) (refundRef : String)
    (txid : Option String) (booking : Booking) (ride : Ride) (op : Payment)
    (rec : String × Nat)
    (hb : db.bookings.find?
      (fun x => x.id = bid ∧ x.status = .confirmed) = some booking)
    (hride : db.rides.find? (fun rd => rd.id = booking.ride_id) = some ride)
    (hauth1 : ¬(ctype = .driver ∧ ride.driver_id ≠ uid))
    (hauth2 : ¬(ctype = .passenger ∧ booking.passenger_id ≠ uid))
    (hop : (db.payments.filter (fun p => p.booking_id = bid)).find?
      (fun p => p.status = .completed ∧ 0 < p.amount) = some op)
    (hrec : resolveRecipient (refundRecipient ctype
      (ride.departure_time - now)) op booking ride driverPhone = some rec)
    (hfresh : db.payments.any
      (fun p => p.pandora_reference = refundRef) = false)
    (hpidfresh : ∀ p ∈ db.payments, p.id ≠ newPid) :
    (ctype = .driver →
      (processRefund db uid bid ctype now driverPhone newPid refundRef
        (.ok txid)).2.refund_to = some Party.passenger ∧
      paymentTypeById? (processRefund db uid bid ctype now driverPhone
        newPid refundRef (.ok txid)).1 newPid =
        some .refund_to_passenger) ∧
    (ctype = .passenger → 3600000 < ride.departure_time - now →
      (processRefund db uid bid ctype now driverPhone newPid refundRef
        (.ok txid)).2.refund_to = some Party.passenger ∧
      paymentTypeById? (processRefund db uid bid ctype now driverPhone
        newPid refundRef (.ok txid)).1 newPid =
        some .refund_to_passenger) ∧
    (ctype = .passenger → ride.departure_time - now ≤ 3600000 →
      (processRefund db uid bid ctype now driverPhone newPid refundRef
        (.ok txid)).2.refund_to = some Party.driver ∧
      paymentTypeById? (processRefund db uid bid ctype now driverPhone
        newPid refundRef (.ok txid)).1 newPid =
        some .refund_to_driver) := by
  have hcore := refund_ok_core db uid bid ctype now driverPhone newPid
    refundRef txid booking ride op rec hb hride hauth1 hauth2 hop hrec
    hfresh
  have htype := refund_ok_new_payment_type db uid bid ctype now driverPhone
    newPid refundRef txid booking ride op rec hb hride hauth1 hauth2 hop
    hrec hfresh hpidfresh
  refine ⟨?_, ?_, ?_⟩
  · intro hc
    subst hc
    have hrr : refundRecipient .driver (ride.departure_time - now) =
        .passenger := by simp [refundRecipient]
    rw [hcore.1, htype.1, hrr]
    exact ⟨rfl, rfl⟩
  · intro hc ht
    subst hc
    have hrr : refundRecipient .passenger (ride.departure_time - now) =
        .passenger := by simp [refundRecipient, ht]
    rw [hcore.1, htype.1, hrr]
    exact ⟨rfl, rfl⟩
  · intro hc ht
    subst hc
    have hrr : refundRecipient .passenger (ride.departure_time - now) =
        .driver := by simp [refundRecipient, not_lt.mpr ht]
    rw [hcore.1, htype.1, hrr]
    exact ⟨rfl, rfl⟩

/-- Witness for C6: the three routing rules at a concrete store — driver
cancels; passenger cancels 2 h before departure; passenger cancels 30 min
before departure. -/
theorem refund_routing_witness :
    ((processRefund rDB 10 2 .driver 0 (some "256700000000") 4 "REFUND1"
        (.ok none)).2.refund_to = some Party.passenger ∧
      paymentTypeById? (processRefund rDB 10 2 .driver 0
        (some "256700000000") 4 "REFUND1" (.ok none)).1 4 =
        some .refund_to_passenger) ∧
    ((processRefund rDB 20 2 .passenger 0 (some "256700000000") 4
        "REFUND1" (.ok none)).2.refund_to = some Party.passenger ∧
      paymentTypeById? (processRefund rDB 20 2 .passenger 0
        (some "256700000000") 4 "REFUND1" (.ok none)).1 4 =
        some .refund_to_passenger) ∧
    ((processRefund rDB 20 2 .passenger 5400000 (some "256700000000") 4
        "REFUND1" (.ok none)).2.refund_to = some Party.driver ∧
      paymentTypeById? (processRefund rDB 20 2 .passenger 5400000
        (some "256700000000") 4 "REFUND1" (.ok none)).1 4 =
        some .refund_to_driver) :=
  ⟨(refund_routing rDB 10 2 .driver 0 (some "256700000000") 4 "REFUND1"
      none rBooking rRide rPayment ("256771234567", 20) (by decide)
      (by decide) (by decide) (by decide) (by decide) (by decide)
      (by decide) (by decide)).1 rfl,
   (refund_routing rDB 20 2 .passenger 0 (some "256700000000") 4 "REFUND1"
      none rBooking rRide rPayment ("256771234567", 20) (by decide)
      (by decide) (by decide) (by decide) (by decide) (by decide)
      (by decide) (by decide)).2.1 rfl (by decide),
   (refund_routing rDB 20 2 .passenger 5400000 (some "256700000000") 4
      "REFUND1" none rBooking rRide rPayment ("256700000000", 10)
      (by decide) (by decide) (by decide) (by decide) (by decide)
      (by decide) (by decide) (by decide)).2.2 rfl (by decide)⟩

/-! ## Claim C10 -/

/-- C10: every refund payment created by a successful Cancel has amount
exactly the amount of the original payment found for the booking — the
first payment of the booking with status `completed` and positive amount,
selected without any `payment_type` check — a full refund, never partial
and never recomputed from the ride price. -/
theorem refund_full_original_amount
    (db : DB) (uid bid : Nat) (ctype : Party) (now : Int)
    (driverPhone : Option String) (newPid : Nat) (refundRef : String)
    (txid : Option String) (booking : Booking) (ride : Ride) (op : Payment)
    (rec : String × Nat)
    (hb : db.bookings.find?
      (fun x => x.id = bid ∧ x.status = .confirmed) = some booking)
    (hride : db.rides.find? (fun rd => rd.id = booking.ride_id) = some ride)
    (hauth1 : ¬(ctype = .driver ∧ ride.driver_id ≠ uid))
    (hauth2 : ¬(ctype = .passenger ∧ booking.passenger_id ≠ uid))
    (hop : (db.payments.filter (fun p => p.booking_id = bid)).find?
      (fun p => p.status = .completed ∧ 0 < p.amount) = some op)
    (hrec : resolveRecipient (refundRecipient ctype
      (ride.departure_time - now)) op booking ride driverPhone = some rec)
    (hfresh : db.payments.any
      (fun p => p.pandora_reference = refundRef) = false)
    (hpidfresh : ∀ p ∈ db.payments, p.id ≠ newPid) :
    (processRefund db uid bid ctype now driverPhone newPid refundRef
      (.ok txid)).2.amount = some op.amount ∧
    paymentAmountById? (processRefund db uid bid ctype now driverPhone
      newPid refundRef (.ok txid)).1 newPid = some op.amount := by
  have hcore := refund_ok_core db uid bid ctype now driverPhone newPid
    refundRef txid booking ride op rec hb hride hauth1 hauth2 hop hrec
    hfresh
  have htype := refund_ok_new_payment_type db uid bid ctype now driverPhone
    newPid refundRef txid booking ride op rec hb hride hauth1 hauth2 hop
    hrec hfresh hpidfresh
  rw [hcore.1]
  exact ⟨rfl, htype.2⟩

/-- A completed payment whose type is already `refund_to_passenger`, to
exhibit that the original-payment lookup ignores `payment_type`. -/
def oddPayment : Payment :=
  ⟨3, 2, 20, 977, .refund_to_passenger, .completed, "REF1", none,
    "256771234567", none, 0⟩

/-- Witness for C10: the refund amount equals the found payment's amount
(977), even though that payment's type is not `booking_fee` and 977 is not
any recomputed fee of the 5000-per-seat ride. -/
theorem refund_full_original_amount_witness :
    (processRefund ⟨[rRide], [rBooking], [oddPayment]⟩ 20 2 .passenger 0
      (some "256700000000") 4 "REFUND1" (.ok none)).2.amount =
      some oddPayment.amount ∧
    paymentAmountById? (processRefund ⟨[rRide], [rBooking], [oddPayment]⟩
      20 2 .passenger 0 (some "256700000000") 4 "REFUND1"
      (.ok none)).1 4 = some oddPayment.amount :=
  refund_full_original_amount ⟨[rRide], [rBooking], [oddPayment]⟩ 20 2
    .passenger 0 (some "256700000000") 4 "REFUND1" none rBooking rRide
    oddPayment ("256771234567", 20) (by decide) (by decide) (by decide)
    (by decide) (by decide) (by decide) (by decide) (by decide)

/-! ## Initiate-payment success-path computation -/

/-- The pending booking-fee payment row inserted by the initiate-payment
handler. -/
def initInsertRow (bid uid : Nat) (fee : Int) (newRef : String)
    (normalizedPhone : String) (newPid : Nat) : Payment :=
  { id := newPid, booking_id := bid, user_id := uid, amount := fee,
    payment_type := .booking_fee, status := .pending,
    pandora_reference := newRef, pandora_transaction_id := none,
    phone_number := normalizedPhone, error_message := none,
    retry_count := 0 }

theorem initiate_ok_shape
    (db : DB) (uid bid : Nat) (phone : String) (now : Int) (newPid : Nat)
    (newRef : String) (txid : Option String) (b : Booking) (ride : Ride)
    (hb : db.bookings.find? (fun x => x.id = bid) = some b)
    (hride : db.rides.find? (fun rd => rd.id = b.ride_id) = some ride)
    (hpass : b.passenger_id = uid)
    (hbs : b.status = .pending_payment)
    (hdep : ¬ ride.departure_time < now)
    (hphone : phoneRegexTest (stripSpaces phone) = true)
    (hfresh : db.payments.any
      (fun p => p.pandora_reference = newRef) = false)
    (hfee : 0 < bookingFee ride.price b.seats_booked) :
    initiatePayment db uid bid phone now newPid newRef (.ok txid) =
      ({ db with
          payments := (db.payments ++
            [initInsertRow bid uid (bookingFee ride.price b.seats_booked)
              newRef (normalizePhone (stripSpaces phone)) newPid]).map
            (fun p => if p.id = newPid then
              { p with status := .processing,
                       pandora_transaction_id := some (txid.getD newRef) }
              else p),
          bookings :=
            if b.booking_fee ≠ bookingFee ride.price b.seats_booked then
              db.bookings.map (fun x => if x.id = bid then
                { x with
                    booking_fee := bookingFee ride.price b.seats_booked }
                else x)
            else db.bookings },
       ⟨200, true, none, some newRef,
         some (bookingFee ride.price b.seats_booked),
         some (normalizePhone (stripSpaces phone))⟩) := by
  unfold initiatePayment
  simp only [hphone, hb, hride]
  rw [if_neg (by simp)]
  rw [if_neg (by simp [hpass]), if_neg (by simp [hbs]), if_neg hdep,
    if_neg (by simp [hfresh]; omega)]
  by_cases hbf : b.booking_fee = bookingFee ride.price b.seats_booked <;>
    simp [initInsertRow, updatePayment, hbf]

/-- The state after a successful `completed` webhook delivery: booking
confirmed, payment completed, seats decremented. -/
theorem webhook_completed_step
    (db1 : DB) (pl : WebhookPayload) (newRef : String) (pNew : Payment)
    (b2 : Booking) (ride : Ride)
    (hr2 : webhookRef pl = some newRef) (hrne : newRef ≠ "")
    (hst2 : pl.status = some "completed")
    (hfind : findPaymentByRef db1 newRef = some pNew)
    (hterm : ¬(pNew.status = .completed ∨ pNew.status = .refunded))
    (hb2 : db1.bookings.find? (fun x => x.id = pNew.booking_id) = some b2)
    (hbs2 : b2.status ≠ .confirmed)
    (hride1 : db1.rides.find? (fun rd => rd.id = b2.ride_id) = some ride)
    (hru1 : ∀ rd ∈ db1.rides, rd.id = b2.ride_id → rd = ride)
    (hcap : b2.seats_booked ≤ ride.available_seats)
    (hinv : ride.available_seats ≤ ride.total_seats)
    (hs0 : 0 ≤ b2.seats_booked) :
    bookingStatus? (processWebhook db1 allWritesOk pl).1 pNew.booking_id =
      some .confirmed ∧
    paymentStatusByRef? (processWebhook db1 allWritesOk pl).1 newRef =
      some .completed ∧
    rideSeats? (processWebhook db1 allWritesOk pl).1 b2.ride_id =
      some (ride.available_seats - b2.seats_booked) := by
  have hbid : b2.id = pNew.booking_id := by
    have := List.find?_some hb2
    exact of_decide_eq_true this
  have hrid : ride.id = b2.ride_id := by
    have := List.find?_some hride1
    exact of_decide_eq_true this
  have hguard : db1.rides.all (fun rd =>
      rd.id ≠ b2.ride_id ∨
      (0 ≤ rd.available_seats - b2.seats_booked ∧
        rd.available_seats - b2.seats_booked ≤ rd.total_seats)) = true := by
    rw [List.all_eq_true]
    intro rd hrd
    by_cases hid : rd.id = b2.ride_id
    · have heq := hru1 rd hrd hid
      subst heq
      refine decide_eq_true (Or.inr ⟨by omega, by omega⟩)
    · exact decide_eq_true (Or.inl hid)
  have hshape := webhook_completed_shape db1 allWritesOk pl newRef pNew b2
    hr2 hrne hst2 hfind hterm rfl rfl hb2 hbs2 hguard
  rw [hshape]
  refine ⟨?_, ?_, ?_⟩
  · unfold bookingStatus?
    rw [find?_map_self _ _
      (fun x => by by_cases h : x.id = pNew.booking_id <;> simp [h]) _ b2
      hb2]
    simp [hbid]
  · unfold paymentStatusByRef? findPaymentByRef
    have hfind' : db1.payments.find?
        (fun q => q.pandora_reference = newRef) = some pNew := hfind
    rw [find?_map_self _ _
      (fun q => by by_cases h : q.id = pNew.id <;> simp [h]) _ pNew hfind']
    simp
  · unfold rideSeats? markFullIfEmpty
    rw [find?_map_self _ _ (fun x => by
        by_cases h : x.id = b2.ride_id ∧ x.available_seats = 0 <;>
          simp [h]) _ _
      (find?_map_self _ _ (fun x => by by_cases h : x.id = b2.ride_id <;>
        simp [h]) _ ride hride1)]
    by_cases hz : ride.available_seats - b2.seats_booked = 0 <;>
      simp [hrid, hz]

/-! ## Claim C2 -/

/-- C2: round-trip.  For a booking in `pending_payment`, a successful
Initiate (gateway accepted) followed by processing a `completed` webhook
for the same reference leaves the booking `confirmed`, the payment
`completed`, and the owning ride's `available_seats` reduced by exactly
`seats_booked`; the Initiate itself leaves `available_seats` untouched —
the decrement happens at webhook confirmation. -/
theorem initiate_then_completed_webhook_roundtrip
    (db : DB) (uid bid : Nat) (phone : String) (now : Int) (newPid : Nat)
    (newRef : String) (txid : Option String) (b : Booking) (ride : Ride)
    (pl : WebhookPayload)
    (hb : db.bookings.find? (fun x => x.id = bid) = some b)
    (hride : db.rides.find? (fun rd => rd.id = b.ride_id) = some ride)
    (hpass : b.passenger_id = uid)
    (hbs : b.status = .pending_payment)
    (hdep : ¬ ride.departure_time < now)
    (hphone : phoneRegexTest (stripSpaces phone) = true)
    (hfresh : db.payments.any
      (fun p => p.pandora_reference = newRef) = false)
    (hfee : 0 < bookingFee ride.price b.seats_booked)
    (hr2 : webhookRef pl = some newRef) (hrne : newRef ≠ "")
    (hst2 : pl.status = some "completed")
    (hru : ∀ rd ∈ db.rides, rd.id = b.ride_id → rd = ride)
    (hcap : b.seats_booked ≤ ride.available_seats)
    (hinv : ride.available_seats ≤ ride.total_seats)
    (hs0 : 0 ≤ b.seats_booked) :
    (initiatePayment db uid bid phone now newPid newRef
      (.ok txid)).2.success = true ∧
    rideSeats? (initiatePayment db uid bid phone now newPid newRef
      (.ok txid)).1 b.ride_id = some ride.available_seats ∧
    bookingStatus? (processWebhook (initiatePayment db uid bid phone now
      newPid newRef (.ok txid)).1 allWritesOk pl).1 bid =
      some .confirmed ∧
    paymentStatusByRef? (processWebhook (initiatePayment db uid bid phone
      now newPid newRef (.ok txid)).1 allWritesOk pl).1 newRef =
      some .completed ∧
    rideSeats? (processWebhook (initiatePayment db uid bid phone now
      newPid newRef (.ok txid)).1 allWritesOk pl).1 b.ride_id =
      some (ride.available_seats - b.seats_booked) := by
  have hbid : b.id = bid := by
    have := List.find?_some hb
    exact of_decide_eq_true this
  have hshape1 := initiate_ok_shape db uid bid phone now newPid newRef txid
    b ride hb hride hpass hbs hdep hphone hfresh hfee
  rw [hshape1]
  set fee := bookingFee ride.price b.seats_booked with hfeedef
  set np := normalizePhone (stripSpaces phone) with hnpdef
  set pNew : Payment :=
    { id := newPid, booking_id := bid, user_id := uid, amount := fee,
      payment_type := .booking_fee, status := .processing,
      pandora_reference := newRef,
      pandora_transaction_id := some (txid.getD newRef),
      phone_number := np, error_message := none, retry_count := 0 }
    with hpnewdef
  set b2 : Booking := if b.booking_fee ≠ fee then
    { b with booking_fee := fee } else b with hb2def
  set db1 : DB :=
    { db with
        payments := (db.payments ++
          [initInsertRow bid uid fee newRef np newPid]).map
          (fun p => if p.id = newPid then
            { p with status := .processing,
                     pandora_transaction_id := some (txid.getD newRef) }
            else p),
        bookings := if b.booking_fee ≠ fee then
          db.bookings.map (fun x => if x.id = bid then
            { x with booking_fee := fee } else x)
          else db.bookings } with hdb1def
  have hdb1rides : db1.rides = db.rides := rfl
  have hfindNew : findPaymentByRef db1 newRef = some pNew := by
    unfold findPaymentByRef
    show ((db.payments ++ [initInsertRow bid uid fee newRef np
      newPid]).map _).find? _ = _
    rw [List.map_append, List.find?_append]
    have h1 : (db.payments.map (fun p => if p.id = newPid then
        { p with status := PaymentStatus.processing,
                 pandora_transaction_id := some (txid.getD newRef) }
        else p)).find? (fun p => p.pandora_reference = newRef) = none := by
      rw [find?_map_comm _ _
        (fun p => by by_cases h : p.id = newPid <;> simp [h]) _,
        List.find?_eq_none.mpr (fun a ha => by
          simpa using List.any_eq_false.mp hfresh a ha)]
      rfl
    rw [h1]
    simp [initInsertRow, hpnewdef]
  have hb2find : db1.bookings.find?
      (fun x => x.id = pNew.booking_id) = some b2 := by
    show db1.bookings.find? (fun x => x.id = bid) = some b2
    rw [hdb1def, hb2def]
    by_cases hbf : b.booking_fee ≠ fee
    · simp only [if_pos hbf]
      rw [find?_map_self _ _
        (fun x => by by_cases h : x.id = bid <;> simp [h]) _ b hb]
      simp [hbid]
    · simp only [if_neg hbf]
      exact hb
  have hb2st : b2.status = b.status := by
    rw [hb2def]; split <;> rfl
  have hb2rid : b2.ride_id = b.ride_id := by
    rw [hb2def]; split <;> rfl
  have hb2sb : b2.seats_booked = b.seats_booked := by
    rw [hb2def]; split <;> rfl
  have hstep := webhook_completed_step db1 pl newRef pNew b2 ride hr2 hrne
    hst2 hfindNew
    (by rintro (h | h) <;> cases h)
    hb2find
    (by rw [hb2st, hbs]; intro h; cases h)
    (by rw [hb2rid, hdb1rides]; exact hride)
    (by rw [hb2rid, hdb1rides]; exact hru)
    (by rw [hb2sb]; exact hcap) hinv (by rw [hb2sb]; exact hs0)
  refine ⟨rfl, ?_, ?_, ?_, ?_⟩
  · show rideSeats? db1 b.ride_id = some ride.available_seats
    unfold rideSeats?
    rw [hdb1rides, hride]
    have : ride.available_seats = ride.available_seats := rfl
    rfl
  · exact hstep.1
  · exact hstep.2.1
  · have := hstep.2.2
    rw [hb2rid, hb2sb] at this
    exact this

/-- Witness for C2 at the concrete sample store: initiate at time 0 on the
pending booking, then deliver the `completed` webhook for the fresh
reference `REF2`. -/
theorem initiate_then_completed_webhook_roundtrip_witness :
    (initiatePayment wDB 20 2 "0771234567" 0 7 "REF2"
      (.ok none)).2.success = true ∧
    rideSeats? (initiatePayment wDB 20 2 "0771234567" 0 7 "REF2"
      (.ok none)).1 wBooking.ride_id = some wRide.available_seats ∧
    bookingStatus? (processWebhook (initiatePayment wDB 20 2 "0771234567"
      0 7 "REF2" (.ok none)).1 allWritesOk
      ⟨some "REF2", none, some "completed", none, none⟩).1 2 =
      some .confirmed ∧
    paymentStatusByRef? (processWebhook (initiatePayment wDB 20 2
      "0771234567" 0 7 "REF2" (.ok none)).1 allWritesOk
      ⟨some "REF2", none, some "completed", none, none⟩).1 "REF2" =
      some .completed ∧
    rideSeats? (processWebhook (initiatePayment wDB 20 2 "0771234567" 0 7
      "REF2" (.ok none)).1 allWritesOk
      ⟨some "REF2", none, some "completed", none, none⟩).1
      wBooking.ride_id =
      some (wRide.available_seats - wBooking.seats_booked) :=
  initiate_then_completed_webhook_roundtrip wDB 20 2 "0771234567" 0 7
    "REF2" none wBooking wRide
    ⟨some "REF2", none, some "completed", none, none⟩
    (by decide) (by decide) rfl rfl (by decide) (by decide) (by decide)
    (by decide) (by decide) (by decide) rfl (by decide) (by decide)
    (by decide) (by decide)

/-! ## Binary64 model: bit length -/

theorem bitLenAux_zero (fuel : Nat) : bitLenAux fuel 0 = 0 := by
  cases fuel <;> rfl

theorem bitLenAux_spec : ∀ (fuel n : Nat), 0 < n → n < 2 ^ fuel →
    2 ^ (bitLenAux fuel n - 1) ≤ n ∧ n < 2 ^ bitLenAux fuel n := by
  intro fuel
  induction fuel with
  | zero => intro n h1 h2; omega
  | succ fuel ih =>
    intro n h1 h2
    have hne : n ≠ 0 := by omega
    rw [bitLenAux, if_neg hne]
    by_cases hsmall : n / 2 = 0
    · have hn1 : n = 1 := by omega
      subst hn1
      rw [hsmall, bitLenAux_zero]
      norm_num
    · have hhalf1 : 0 < n / 2 := by omega
      have hhalf2 : n / 2 < 2 ^ fuel := by
        have : 2 ^ (fuel + 1) = 2 * 2 ^ fuel := by ring
        omega
      obtain ⟨ihl, ihu⟩ := ih (n / 2) hhalf1 hhalf2
      set L := bitLenAux fuel (n / 2) with hL
      have hL1 : 1 ≤ L := by
        by_contra hc
        have : L = 0 := by omega
        rw [this] at ihu
        omega
      constructor
      · have h3 : 2 ^ (L + 1 - 1) = 2 * 2 ^ (L - 1) := by
          have hLe : L + 1 - 1 = (L - 1) + 1 := by omega
          rw [hLe, pow_succ]
          ring
        rw [h3]
        omega
      · have : 2 ^ (L + 1) = 2 * 2 ^ L := by ring
        omega

theorem bitLen_spec (n : Nat) (h1 : 0 < n) (h2 : n < 2 ^ 300) :
    2 ^ (bitLen n - 1) ≤ n ∧ n < 2 ^ bitLen n :=
  bitLenAux_spec 300 n h1 h2

theorem bitLen_le (n B : Nat) (h1 : 0 < n) (h2 : n < 2 ^ B)
    (hB : B ≤ 300) : bitLen n ≤ B := by
  have hsp := bitLen_spec n h1
    (lt_of_lt_of_le h2 (Nat.pow_le_pow_right (by norm_num) hB))
  by_contra hc
  have hBle : B ≤ bitLen n - 1 := by omega
  have : 2 ^ B ≤ 2 ^ (bitLen n - 1) :=
    Nat.pow_le_pow_right (by norm_num) hBle
  omega

/-- The bit length is characterised by its sandwiching powers of two. -/
theorem bitLen_eq_of (n L : Nat) (hL1 : 1 ≤ L) (hl : 2 ^ (L - 1) ≤ n)
    (hu : n < 2 ^ L) (hfit : L ≤ 300) : bitLen n = L := by
  have h1 : 0 < n := lt_of_lt_of_le (Nat.pos_pow_of_pos (L - 1) (by norm_num)) hl
  have hsp := bitLen_spec n h1
    (lt_of_lt_of_le hu (Nat.pow_le_pow_right (by norm_num) hfit))
  obtain ⟨hs1, hs2⟩ := hsp
  by_contra hc
  rcases Nat.lt_or_ge (bitLen n) L with hlt | hge
  · have hle : bitLen n ≤ L - 1 := by omega
    have hpow : 2 ^ bitLen n ≤ 2 ^ (L - 1) :=
      Nat.pow_le_pow_right (by norm_num) hle
    omega
  · have hne2 : L < bitLen n := by omega
    have hle : L ≤ bitLen n - 1 := by omega
    have hpow : 2 ^ L ≤ 2 ^ (bitLen n - 1) :=
      Nat.pow_le_pow_right (by norm_num) hle
    omega

/-! ## Binary64 model: rounding a mantissa -/

theorem roundNearestShift_close (m : Int) (d : Nat) :
    -(2 ^ d : Int) ≤ 2 * (roundNearestShift m d * 2 ^ d - m) ∧
    2 * (roundNearestShift m d * 2 ^ d - m) ≤ 2 ^ d := by
  have ht : (0 : Int) < 2 ^ d := by positivity
  have hqr : m / 2 ^ d * 2 ^ d + m % 2 ^ d = m := by
    have h := Int.ediv_add_emod m (2 ^ d)
    linarith [mul_comm (2 ^ d : Int) (m / 2 ^ d)]
  have hr0 : 0 ≤ m % (2 ^ d : Int) := Int.emod_nonneg m (ne_of_gt ht)
  have hrt : m % (2 ^ d : Int) < 2 ^ d := Int.emod_lt_of_pos m ht
  have hq1 : (m / (2 ^ d : Int) + 1) * 2 ^ d =
      m / (2 ^ d : Int) * 2 ^ d + 2 ^ d := by ring
  simp only [roundNearestShift]
  split_ifs <;> constructor <;> linarith

theorem roundNearestShift_dvd (m : Int) (d : Nat)
    (h : (2 ^ d : Int) ∣ m) :
    roundNearestShift m d = m.ediv (2 ^ d) ∧
    roundNearestShift m d * 2 ^ d = m := by
  have ht : (0 : Int) < 2 ^ d := by positivity
  have hmod : m % (2 ^ d : Int) = 0 := Int.emod_eq_zero_of_dvd h
  simp only [roundNearestShift]
  rw [hmod]
  rw [if_pos (by linarith)]
  exact ⟨rfl, Int.ediv_mul_cancel h⟩

theorem roundNearestShift_of_lt (m q r : Int) (d : Nat)
    (hm : m = q * 2 ^ d + r) (h0 : 0 ≤ r) (hlt : 2 * r < 2 ^ d) :
    roundNearestShift m d = q := by
  have ht : (0 : Int) < 2 ^ d := by positivity
  have hrt : r < 2 ^ d := by linarith
  have hdiv : m / (2 ^ d : Int) = q := by
    rw [hm, show q * 2 ^ d + r = r + q * 2 ^ d by ring,
      Int.add_mul_ediv_right r q (ne_of_gt ht),
      Int.ediv_eq_zero_of_lt h0 hrt]
    ring
  have hmod : m % (2 ^ d : Int) = r := by
    rw [hm, show q * 2 ^ d + r = r + q * 2 ^ d by ring,
      Int.add_mul_emod_self, Int.emod_eq_of_lt h0 hrt]
  simp only [roundNearestShift]
  rw [hmod, hdiv, if_pos hlt]

theorem roundNearestShift_le_of_lt (m : Int) (L : Nat) (hm0 : 0 ≤ m)
    (hmL : m < 2 ^ L) (hL : 53 ≤ L) :
    roundNearestShift m (L - 53) ≤ 2 ^ 53 := by
  have ht : (0 : Int) < 2 ^ (L - 53) := by positivity
  have hq : m / (2 ^ (L - 53) : Int) < 2 ^ 53 := by
    rw [Int.ediv_lt_iff_lt_mul ht]
    calc m < 2 ^ L := hmL
    _ = 2 ^ 53 * 2 ^ (L - 53) := by
        rw [← pow_add]
        congr 1
        omega
  simp only [roundNearestShift]
  split_ifs <;> omega

/-! ## Binary64 model: value-level facts -/

theorem dyVal_pos (m : Int) (k : Int) (hm : 0 < m) : 0 < dyVal m k := by
  unfold dyVal
  exact div_pos (by exact_mod_cast hm)
    (zpow_pos (by norm_num : (0 : ℚ) < 2) k)

theorem dyVal_scale (R : Int) (k : Int) (d : Nat) :
    dyVal R (k - d) = ((R * 2 ^ d : Int) : ℚ) / 2 ^ k := by
  unfold dyVal
  have hne : ((2 : ℚ) ^ ((k : Int) - d)) ≠ 0 :=
    zpow_ne_zero _ (by norm_num)
  have hne2 : ((2 : ℚ) ^ (k : Int)) ≠ 0 := zpow_ne_zero _ (by norm_num)
  rw [div_eq_div_iff hne hne2]
  push_cast
  rw [← zpow_natCast (2 : ℚ) d]
  rw [show ((R : ℚ) * 2 ^ (d : Int)) * 2 ^ ((k : Int) - d) =
    (R : ℚ) * (2 ^ (d : Int) * 2 ^ ((k : Int) - d)) from by ring]
  rw [← zpow_add₀ (by norm_num : (2 : ℚ) ≠ 0)]
  rw [show (d : Int) + (k - d) = k from by omega]

theorem roundM_exact (m : Int) (k : Int) (v : Int) (j : Nat)
    (hm : m = v * 2 ^ j) (hv : v.natAbs < 2 ^ 53) (hm0 : 0 < m)
    (hj : j ≤ 200) :
    dyVal (roundM m k).1 (roundM m k).2 = dyVal m k := by
  unfold roundM
  by_cases hL : bitLen m.natAbs ≤ 53
  · rw [if_pos hL]
  · rw [if_neg hL]
    have hmabs : m.natAbs = v.natAbs * 2 ^ j := by
      rw [hm, Int.natAbs_mul]
      congr 1
      rw [Int.natAbs_pow]
      rfl
    have hmlt : m.natAbs < 2 ^ (53 + j) := by
      rw [hmabs, pow_add]
      exact (Nat.mul_lt_mul_right
        (Nat.pos_pow_of_pos j (by norm_num))).mpr hv
    have hmpos : 0 < m.natAbs := by
      rw [Int.natAbs_pos]
      omega
    set L := bitLen m.natAbs with hLdef
    have hLle : L ≤ 53 + j := bitLen_le _ _ hmpos hmlt (by omega)
    have hdle : L - 53 ≤ j := by omega
    have hdvd : (2 : Int) ^ (L - 53) ∣ m := by
      have h2 : (2 : Int) ^ (L - 53) ∣ (2 : Int) ^ j := pow_dvd_pow 2 hdle
      rw [hm]
      exact Dvd.dvd.mul_left h2 v
    obtain ⟨hq, hqm⟩ := roundNearestShift_dvd m (L - 53) hdvd
    show dyVal (roundNearestShift m (L - 53)) (k - (L - 53 : Nat)) =
      dyVal m k
    rw [dyVal_scale, hqm]
    rfl

set_option maxHeartbeats 1000000 in
theorem roundM_err (m : Int) (k : Int) (hm0 : 0 < m)
    (hfit : m.natAbs < 2 ^ 300) :
    |dyVal (roundM m k).1 (roundM m k).2 - dyVal m k| ≤
      dyVal m k * (2 : ℚ) ^ (-53 : Int) := by
  have hposv : 0 < dyVal m k := dyVal_pos m k hm0
  have hrhs : 0 < dyVal m k * (2 : ℚ) ^ (-53 : Int) :=
    mul_pos hposv (zpow_pos (by norm_num) _)
  unfold roundM
  by_cases hL : bitLen m.natAbs ≤ 53
  · rw [if_pos hL]
    simp only [sub_self, abs_zero]
    exact le_of_lt hrhs
  · rw [if_neg hL]
    set L := bitLen m.natAbs with hLdef
    set d := L - 53 with hddef
    obtain ⟨hc1, hc2⟩ := roundNearestShift_close m d
    set R := roundNearestShift m d with hRdef
    show |dyVal R (k - (d : Nat)) - dyVal m k| ≤ _
    rw [dyVal_scale]
    have hkpos : (0 : ℚ) < 2 ^ (k : Int) :=
      zpow_pos (by norm_num : (0 : ℚ) < 2) k
    have hdiff : ((R * 2 ^ d : Int) : ℚ) / 2 ^ (k : Int) - dyVal m k =
        ((R * 2 ^ d - m : Int) : ℚ) / 2 ^ (k : Int) := by
      unfold dyVal
      rw [div_sub_div_same]
      push_cast
      ring_nf
    rw [hdiff, abs_div, abs_of_pos hkpos]
    -- numerator bound: |R·2^d − m| ≤ 2^d / 2 ≤ m·2^(-53)
    have habs : |((R * 2 ^ d - m : Int) : ℚ)| ≤ ((2 : ℚ) ^ d) / 2 := by
      rw [abs_le]
      have h1 : (-(2 ^ d : Int) : ℚ) ≤ 2 * ((R * 2 ^ d - m : Int) : ℚ) := by
        exact_mod_cast hc1
      have h2 : 2 * ((R * 2 ^ d - m : Int) : ℚ) ≤ ((2 ^ d : Int) : ℚ) := by
        exact_mod_cast hc2
      push_cast at h1 h2 ⊢
      constructor <;> linarith
    have hL54 : 54 ≤ L := by omega
    have hmlow : (2 : ℚ) ^ (d + 52) ≤ (m : ℚ) := by
      have hnpos : 0 < m.natAbs := by
        rw [Int.natAbs_pos]
        omega
      have hspec := (bitLen_spec m.natAbs hnpos hfit).1
      have hLd : L - 1 = d + 52 := by omega
      rw [hLd] at hspec
      have hz : ((2 ^ (d + 52) : ℕ) : ℤ) ≤ m := by
        generalize hA : (2 : ℕ) ^ (d + 52) = A at hspec ⊢
        omega
      calc (2 : ℚ) ^ (d + 52) = ((2 ^ (d + 52) : ℕ) : ℚ) := by
            push_cast; ring
      _ ≤ (m : ℚ) := by exact_mod_cast hz
    have hhalf : ((2 : ℚ) ^ d) / 2 ≤ (m : ℚ) * 2 ^ (-53 : Int) := by
      have h1 : ((2 : ℚ) ^ d) / 2 = 2 ^ (d + 52) * 2 ^ (-53 : Int) := by
        rw [← zpow_natCast (2 : ℚ) d, ← zpow_natCast (2 : ℚ) (d + 52),
          ← zpow_add₀ (by norm_num : (2 : ℚ) ≠ 0),
          show ((d + 52 : ℕ) : ℤ) + (-53) = (d : ℤ) - 1 from by
            push_cast; omega,
          zpow_sub₀ (by norm_num : (2 : ℚ) ≠ 0)]
        norm_num
      rw [h1]
      exact mul_le_mul_of_nonneg_right hmlow
        (le_of_lt (zpow_pos (by norm_num) _))
    have hnum := le_trans habs hhalf
    calc |((R * 2 ^ d - m : Int) : ℚ)| / 2 ^ (k : Int) ≤
        ((m : ℚ) * 2 ^ (-53 : Int)) / 2 ^ (k : Int) :=
          (div_le_div_iff_of_pos_right hkpos).mpr hnum
    _ = dyVal m k * 2 ^ (-53 : Int) := by
        unfold dyVal
        ring

theorem pos_of_dyVal_pos (X : Int) (K : Int) (h : 0 < dyVal X K) :
    0 < X := by
  unfold dyVal at h
  by_contra hc
  push_neg at hc
  have hX : (X : ℚ) ≤ 0 := by exact_mod_cast hc
  have := div_nonpos_of_nonpos_of_nonneg hX
    (le_of_lt (zpow_pos (by norm_num : (0 : ℚ) < 2) K))
  linarith

theorem two_zpow_neg53_lt_one : (2 : ℚ) ^ (-53 : Int) < 1 := by
  rw [zpow_neg]
  rw [show ((53 : Int)) = ((53 : Nat) : Int) from rfl, zpow_natCast]
  rw [inv_lt_one_iff₀]
  right
  norm_num

theorem roundM_val_pos (m : Int) (k : Int) (hm0 : 0 < m)
    (hfit : m.natAbs < 2 ^ 300) :
    0 < dyVal (roundM m k).1 (roundM m k).2 := by
  have herr := roundM_err m k hm0 hfit
  have hv := dyVal_pos m k hm0
  have h53 := two_zpow_neg53_lt_one
  have h53p : (0 : ℚ) < (2 : ℚ) ^ (-53 : Int) := zpow_pos (by norm_num) _
  have habs := (abs_le.mp herr).1
  nlinarith

theorem roundM_fst_pos (m : Int) (k : Int) (hm0 : 0 < m)
    (hfit : m.natAbs < 2 ^ 300) : 0 < (roundM m k).1 :=
  pos_of_dyVal_pos _ _ (roundM_val_pos m k hm0 hfit)

theorem roundM_fst_le (m : Int) (k : Int) (hm0 : 0 < m)
    (hfit : m.natAbs < 2 ^ 300) : (roundM m k).1 ≤ 2 ^ 53 := by
  have hnpos : 0 < m.natAbs := by
    rw [Int.natAbs_pos]
    omega
  obtain ⟨hs1, hs2⟩ := bitLen_spec m.natAbs hnpos hfit
  unfold roundM
  by_cases hL : bitLen m.natAbs ≤ 53
  · rw [if_pos hL]
    have hpow : m.natAbs < 2 ^ 53 :=
      lt_of_lt_of_le hs2 (Nat.pow_le_pow_right (by norm_num) hL)
    show m ≤ 2 ^ 53
    generalize hA : (2 : ℕ) ^ 53 = A at hpow
    have : (2 : Int) ^ 53 = (A : Int) := by rw [← hA]; push_cast; try ring
    rw [this]
    omega
  · rw [if_neg hL]
    show roundNearestShift m (bitLen m.natAbs - 53) ≤ 2 ^ 53
    have hmL : m < 2 ^ bitLen m.natAbs := by
      generalize hA : (2 : ℕ) ^ bitLen m.natAbs = A at hs2
      have : (2 : Int) ^ bitLen m.natAbs = (A : Int) := by
        rw [← hA]; push_cast; try ring
      rw [this]
      omega
    exact roundNearestShift_le_of_lt m (bitLen m.natAbs) (le_of_lt hm0)
      hmL (by omega)

theorem ceilShift_eq (m : Int) (k : Int) :
    ceilShift m k = ⌈dyVal m k⌉ := by
  unfold ceilShift
  by_cases hk : 0 ≤ k
  · rw [if_pos hk]
    set t : Int := 2 ^ k.toNat with htdef
    have ht : (0 : Int) < t := by positivity
    have hqr : t * ((m + (t - 1)) / t) + (m + (t - 1)) % t = m + (t - 1) :=
      Int.ediv_add_emod _ _
    have hr0 : 0 ≤ (m + (t - 1)) % t := Int.emod_nonneg _ (ne_of_gt ht)
    have hrt : (m + (t - 1)) % t < t := Int.emod_lt_of_pos _ ht
    set z : Int := (m + (t - 1)) / t with hzdef
    symm
    rw [Int.ceil_eq_iff]
    have htQ : (0 : ℚ) < (t : ℚ) := by exact_mod_cast ht
    have hval : dyVal m k = (m : ℚ) / (t : ℚ) := by
      unfold dyVal
      congr 1
      rw [htdef]
      push_cast
      rw [← zpow_natCast (2 : ℚ) k.toNat, Int.toNat_of_nonneg hk]
    rw [hval]
    constructor
    · rw [lt_div_iff htQ]
      have hz1 : t * (z - 1) < m := by nlinarith
      have hz1Q : (t : ℚ) * ((z : ℚ) - 1) < (m : ℚ) := by
        exact_mod_cast hz1
      nlinarith
    · rw [div_le_iff htQ]
      have hz2 : m ≤ t * z := by nlinarith
      have hz2Q : (m : ℚ) ≤ (t : ℚ) * (z : ℚ) := by exact_mod_cast hz2
      nlinarith
  · rw [if_neg hk]
    have hval : dyVal m k = ((m * 2 ^ (-k).toNat : Int) : ℚ) := by
      unfold dyVal
      rw [div_eq_iff (zpow_ne_zero _ (by norm_num : (2 : ℚ) ≠ 0))]
      push_cast
      rw [← zpow_natCast (2 : ℚ) (-k).toNat, mul_assoc,
        ← zpow_add₀ (by norm_num : (2 : ℚ) ≠ 0),
        show (((-k).toNat : Int) + k) = 0 from by omega]
      simp
    rw [hval, Int.ceil_intCast]

/-- `5 * 0.1` in exact mantissa arithmetic: `5 * m0_1 = 2^54 + 1`. -/
theorem five_mul_m0_1 : (5 : Int) * m0_1 = 2 ^ 54 + 1 := by
  norm_num [m0_1]

/-- Multiplying a multiple of five by the binary64 value of `0.1` rounds
*exactly* to the dyadic `m' / 2`: the exact product sits strictly below
the rounding midpoint. -/
theorem roundM_5m (m' : Nat) (h1 : 1 ≤ m') (h2 : m' < 2 ^ 31) :
    ∃ κ : Nat, κ ≤ 30 ∧ 2 ^ κ ≤ m' ∧ m' < 2 ^ (κ + 1) ∧
      roundM ((5 * m' : Int) * m0_1) 55 =
        ((m' : Int) * 2 ^ (52 - κ), (53 - (κ : Int))) := by
  obtain ⟨κ, hlow, hup⟩ : ∃ κ : Nat, 2 ^ κ ≤ m' ∧ m' < 2 ^ (κ + 1) :=
    ⟨Nat.log 2 m', Nat.pow_log_le_self 2 (by omega),
      Nat.lt_pow_succ_log_self (by norm_num) m'⟩
  have hκ30 : κ ≤ 30 := by
    by_contra hc
    push_neg at hc
    have h31 : (2 : ℕ) ^ 31 ≤ 2 ^ κ := Nat.pow_le_pow_right (by norm_num) hc
    omega
  refine ⟨κ, hκ30, hlow, hup, ?_⟩
  have hx : (5 * m' : Int) * m0_1 = (m' : Int) * (2 ^ 54 + 1) := by
    rw [show (5 * m' : Int) * m0_1 = (m' : Int) * (5 * m0_1) from by ring,
      five_mul_m0_1]
  rw [hx]
  have hxcast : (m' : Int) * (2 ^ 54 + 1) =
      ((m' * (2 ^ 54 + 1) : ℕ) : Int) := by push_cast; ring
  have hxabs : ((m' : Int) * (2 ^ 54 + 1)).natAbs = m' * (2 ^ 54 + 1) := by
    rw [hxcast, Int.natAbs_ofNat]
  have hbit : bitLen (m' * (2 ^ 54 + 1)) = κ + 55 := by
    apply bitLen_eq_of _ _ (by omega) ?_ ?_ (by omega)
    · -- 2^(κ+54) ≤ m'·(2^54+1)
      rw [show κ + 55 - 1 = κ + 54 from by omega]
      have hA : (2 : ℕ) ^ (κ + 54) = 2 ^ κ * 2 ^ 54 := by rw [← pow_add]
      rw [hA]
      generalize hX : (2 : ℕ) ^ κ = X at hlow ⊢
      omega
    · -- m'·(2^54+1) < 2^(κ+55)
      have hA : (2 : ℕ) ^ (κ + 55) = 2 ^ (κ + 1) * 2 ^ 54 := by
        rw [← pow_add]
      have hA31 : (2 : ℕ) ^ (κ + 1) ≤ 2 ^ 31 :=
        Nat.pow_le_pow_right (by norm_num) (by omega)
      rw [hA]
      generalize hX : (2 : ℕ) ^ (κ + 1) = X at hup hA31 ⊢
      omega
  unfold roundM
  rw [hxabs, hbit, if_neg (by omega)]
  have hd : κ + 55 - 53 = κ + 2 := by omega
  rw [hd]
  have hrns : roundNearestShift ((m' : Int) * (2 ^ 54 + 1)) (κ + 2) =
      (m' : Int) * 2 ^ (52 - κ) := by
    apply roundNearestShift_of_lt _ ((m' : Int) * 2 ^ (52 - κ)) (m' : Int)
    · rw [show (m' : Int) * 2 ^ (52 - κ) * 2 ^ (κ + 2) =
        (m' : Int) * (2 ^ (52 - κ) * 2 ^ (κ + 2)) from by ring,
        ← pow_add, show 52 - κ + (κ + 2) = 54 from by omega]
      ring
    · positivity
    · have : (m' : Int) < 2 ^ (κ + 1) := by exact_mod_cast hup
      have hpow : (2 : Int) ^ (κ + 2) = 2 * 2 ^ (κ + 1) := by
        rw [show κ + 2 = (κ + 1) + 1 from by omega, pow_succ]
        ring
      omega
  rw [hrns]
  rw [Prod.mk.injEq]
  refine ⟨rfl, ?_⟩
  push_cast
  ring

/-- Scaling the mantissa scales the value. -/
theorem dyVal_mul (a b : Int) (k : Int) :
    dyVal (a * b) k = dyVal a k * (b : ℚ) := by
  unfold dyVal
  push_cast
  ring

/-- When `p` is not a multiple of five, `p*s/10` stays at distance at
least `1/10` from every integer. -/
theorem ps_mod_ten (p S : Int) (h5 : ¬(5 : Int) ∣ p) (hS1 : 1 ≤ S)
    (hS4 : S ≤ 4) : 1 ≤ (p * S) % 10 ∧ (p * S) % 10 ≤ 9 := by
  interval_cases S <;> omega

/-- A value within `1/16` of `p*S/10` has the same ceiling, when `p` is
not a multiple of five. -/
theorem ceil_approx_eq (p S : Int) (v2 : ℚ) (h5 : ¬(5 : Int) ∣ p)
    (hS1 : 1 ≤ S) (hS4 : S ≤ 4)
    (hclose : |v2 - ((p : ℚ) * (S : ℚ)) / 10| ≤ 1 / 16) :
    ⌈v2⌉ = ⌈((p : ℚ) * (S : ℚ)) / 10⌉ := by
  obtain ⟨hj1, hj9⟩ := ps_mod_ten p S h5 hS1 hS4
  have hded : 10 * (p * S / 10) + p * S % 10 = p * S :=
    Int.ediv_add_emod (p * S) 10
  have haQ : (p : ℚ) * (S : ℚ) =
      10 * ((p * S / 10 : Int) : ℚ) + ((p * S % 10 : Int) : ℚ) := by
    exact_mod_cast hded.symm
  have hj1Q : (1 : ℚ) ≤ ((p * S % 10 : Int) : ℚ) := by exact_mod_cast hj1
  have hj9Q : ((p * S % 10 : Int) : ℚ) ≤ 9 := by exact_mod_cast hj9
  rw [abs_le] at hclose
  obtain ⟨hcl, hcu⟩ := hclose
  have h2 : ⌈((p : ℚ) * (S : ℚ)) / 10⌉ = p * S / 10 + 1 := by
    rw [Int.ceil_eq_iff]
    constructor
    · push_cast
      rw [lt_div_iff (by norm_num : (0 : ℚ) < 10)]
      linarith
    · push_cast
      rw [div_le_iff (by norm_num : (0 : ℚ) < 10)]
      linarith
  rw [h2, Int.ceil_eq_iff]
  constructor
  · push_cast
    have : ((p * S / 10 : Int) : ℚ) < (p : ℚ) * (S : ℚ) / 10 - 1 / 16 +
        1 / 16 := by
      rw [haQ]
      linarith
    linarith
  · push_cast
    have : (p : ℚ) * (S : ℚ) / 10 + 1 / 16 ≤
        ((p * S / 10 : Int) : ℚ) + 1 := by
      rw [haQ]
      linarith
    linarith

/-- The booking fee computed in binary64 equals the exact integer ceiling
of ten percent of `price * seats`, for every price the schema admits
(positive `INTEGER`) and every admissible seat count (1–4). -/
theorem bookingFee_exact (p s : Int) (hp : 0 < p) (hpu : p < 2 ^ 31)
    (hs1 : 1 ≤ s) (hs4 : s ≤ 4) :
    bookingFee p s = ⌈((p : ℚ) * (s : ℚ)) / 10⌉ := by
  have h31 : (2 : Int) ^ 31 = 2147483648 := by norm_num
  rw [h31] at hpu
  unfold bookingFee
  rw [ceilShift_eq]
  by_cases hdvd : (5 : Int) ∣ p
  · -- p a multiple of five: both roundings are exact
    obtain ⟨q, rfl⟩ := hdvd
    have hq0 : 0 < q := by omega
    have hqm : ((q.toNat : Int)) = q := Int.toNat_of_nonneg (le_of_lt hq0)
    have h1 : 1 ≤ q.toNat := by omega
    have h2 : q.toNat < 2 ^ 31 := by
      have hq31 : q < 2147483648 := by omega
      have : (2 : ℕ) ^ 31 = 2147483648 := by norm_num
      omega
    obtain ⟨κ, hκ30, hκl, hκu, hround⟩ := roundM_5m q.toNat h1 h2
    rw [show 5 * q * m0_1 = (5 * (q.toNat : Int)) * m0_1 from by
      rw [hqm]]
    rw [hround]
    have hqpos : (0 : Int) < (q.toNat : Int) := by omega
    have hms0 : 0 < (q.toNat : Int) * 2 ^ (52 - κ) * s :=
      mul_pos (mul_pos hqpos (by positivity)) (by omega)
    have hval2 : dyVal
        (roundM ((q.toNat : Int) * 2 ^ (52 - κ) * s) (53 - (κ : Int))).1
        (roundM ((q.toNat : Int) * 2 ^ (52 - κ) * s) (53 - (κ : Int))).2 =
        dyVal ((q.toNat : Int) * 2 ^ (52 - κ) * s) (53 - (κ : Int)) := by
      apply roundM_exact _ _ ((q.toNat : Int) * s) (52 - κ) (by ring) ?_
        hms0 (by omega)
      have hlt : (q.toNat : Int) * s < 8589934592 := by nlinarith
      have hgt : 0 < (q.toNat : Int) * s := mul_pos hqpos (by omega)
      have h53 : (2 : ℕ) ^ 53 = 9007199254740992 := by norm_num
      omega
    rw [hval2]
    have hexp : ((53 - κ : ℕ) : Int) = 53 - (κ : Int) := by omega
    have hvv : dyVal ((q.toNat : Int) * 2 ^ (52 - κ) * s) (53 - (κ : Int)) =
        (((q.toNat : Int) * s : Int) : ℚ) / 2 := by
      rw [← hexp]
      unfold dyVal
      rw [zpow_natCast]
      rw [div_eq_div_iff (by positivity) (by norm_num : (2 : ℚ) ≠ 0)]
      push_cast
      rw [show (53 - κ) = (52 - κ) + 1 from by omega, pow_succ]
      ring
    rw [hvv]
    congr 1
    have hqmQ : ((q.toNat : ℚ)) = (q : ℚ) := by exact_mod_cast hqm
    push_cast
    rw [hqmQ]
    ring
  · -- p not a multiple of five: error-bound argument
    have hm0pos : (0 : Int) < m0_1 := by norm_num [m0_1]
    have hm0lt : m0_1 < 4503599627370496 := by norm_num [m0_1]
    have hx1pos : 0 < p * m0_1 := mul_pos hp hm0pos
    have hx1lt : p * m0_1 < 2 ^ 84 := by
      have : (2 : Int) ^ 84 = 19342813113834066795298816 := by norm_num
      nlinarith
    have hx1fit : (p * m0_1).natAbs < 2 ^ 300 := by
      have hle : (2 : Int) ^ 84 ≤ 2 ^ 300 := by
        exact pow_le_pow_right (by norm_num) (by norm_num)
      omega
    have herr1 := roundM_err (p * m0_1) 55 hx1pos hx1fit
    have hr1pos := roundM_fst_pos (p * m0_1) 55 hx1pos hx1fit
    have hr1le := roundM_fst_le (p * m0_1) 55 hx1pos hx1fit
    have hv1pos := roundM_val_pos (p * m0_1) 55 hx1pos hx1fit
    set r1 := (roundM (p * m0_1) 55).1 with hr1def
    set k1 := (roundM (p * m0_1) 55).2 with hk1def
    have hx2pos : 0 < r1 * s := mul_pos hr1pos (by omega)
    have hx2le : r1 * s ≤ 2 ^ 55 := by
      have h53i : (2 : Int) ^ 53 = 9007199254740992 := by norm_num
      have h55i : (2 : Int) ^ 55 = 36028797018963968 := by norm_num
      nlinarith
    have hx2fit : (r1 * s).natAbs < 2 ^ 300 := by
      have hle : (2 : Int) ^ 55 ≤ 2 ^ 300 := by
        exact pow_le_pow_right (by norm_num) (by norm_num)
      omega
    have herr2 := roundM_err (r1 * s) k1 hx2pos hx2fit
    rw [dyVal_mul r1 s k1] at herr2
    set v1 := dyVal r1 k1 with hv1def
    set v2 := dyVal (roundM (r1 * s) k1).1 (roundM (r1 * s) k1).2
      with hv2def
    have hv0 : dyVal (p * m0_1) 55 =
        (p : ℚ) * (3602879701896397 / 36028797018963968) := by
      unfold dyVal
      rw [show ((55 : Int)) = ((55 : ℕ) : Int) from rfl, zpow_natCast]
      push_cast [m0_1]
      ring
    rw [hv0] at herr1
    have hεQ : (2 : ℚ) ^ (-53 : Int) = 1 / 9007199254740992 := by norm_num
    rw [hεQ] at herr1 herr2
    rw [abs_le] at herr1 herr2
    obtain ⟨he1l, he1u⟩ := herr1
    obtain ⟨he2l, he2u⟩ := herr2
    have hpQ : (1 : ℚ) ≤ (p : ℚ) := by exact_mod_cast hp
    have hpuQ : (p : ℚ) < 2147483648 := by exact_mod_cast hpu
    have hv1posQ : (0 : ℚ) < v1 := hv1pos
    have hclose : |v2 - ((p : ℚ) * (s : ℚ)) / 10| ≤ 1 / 16 := by
      interval_cases s <;>
        (push_cast at he2l he2u ⊢
         rw [abs_le]
         constructor <;> linarith)
    exact ceil_approx_eq p s v2 hdvd hs1 hs4 hclose

/-! ## Claim C8 -/

set_option maxHeartbeats 1000000 in
/-- C8: for every successful Initiate on a booking with per-seat price `p`
and `seats_booked` `s`, the created payment's amount — the booking fee the
handler computes as `Math.ceil(price * 0.1 * seatsBooked)` in binary64 —
equals `⌈(p·s)/10⌉` in exact integer arithmetic, for every price the
schema admits (a positive `INTEGER`) and every admissible seat count
(1–4). -/
theorem initiate_fee_exact_ceiling
    (db : DB) (uid bid : Nat) (phone : String) (now : Int) (newPid : Nat)
    (newRef : String) (txid : Option String) (b : Booking) (ride : Ride)
    (hb : db.bookings.find? (fun x => x.id = bid) = some b)
    (hride : db.rides.find? (fun rd => rd.id = b.ride_id) = some ride)
    (hpass : b.passenger_id = uid)
    (hbs : b.status = .pending_payment)
    (hdep : ¬ ride.departure_time < now)
    (hphone : phoneRegexTest (stripSpaces phone) = true)
    (hfresh : db.payments.any
      (fun p => p.pandora_reference = newRef) = false)
    (hfreshId : ∀ p ∈ db.payments, p.id ≠ newPid)
    (hprice0 : 0 < ride.price) (hprice31 : ride.price < 2 ^ 31)
    (hseats1 : 1 ≤ b.seats_booked) (hseats4 : b.seats_booked ≤ 4) :
    (initiatePayment db uid bid phone now newPid newRef
        (.ok txid)).2.success = true ∧
    paymentAmountById? (initiatePayment db uid bid phone now newPid newRef
        (.ok txid)).1 newPid =
      some ⌈((ride.price : ℚ) * (b.seats_booked : ℚ)) / 10⌉ := by
  have hfeeEq := bookingFee_exact ride.price b.seats_booked hprice0
    hprice31 hseats1 hseats4
  have hfee : 0 < bookingFee ride.price b.seats_booked := by
    rw [hfeeEq]
    apply Int.ceil_pos.mpr
    have hpQ : (0 : ℚ) < (ride.price : ℚ) := by exact_mod_cast hprice0
    have hsQ : (0 : ℚ) < (b.seats_booked : ℚ) := by
      exact_mod_cast (by omega : (0 : Int) < b.seats_booked)
    positivity
  have hshape := initiate_ok_shape db uid bid phone now newPid newRef txid
    b ride hb hride hpass hbs hdep hphone hfresh hfee
  rw [hshape]
  refine ⟨rfl, ?_⟩
  unfold paymentAmountById?
  rw [find?_id_append_new db.payments _ _
    (fun p => by by_cases h : p.id = newPid <;> simp [h]) newPid
    hfreshId rfl]
  simp [initInsertRow, hfeeEq]

/-- Witness for C8 at the concrete store: price 5000, 2 seats, fee
`⌈5000·2/10⌉ = 1000`. -/
theorem initiate_fee_exact_ceiling_witness :
    (initiatePayment wDB 20 2 "0771234567" 0 7 "REF2"
        (.ok none)).2.success = true ∧
    paymentAmountById? (initiatePayment wDB 20 2 "0771234567" 0 7 "REF2"
        (.ok none)).1 7 =
      some ⌈((wRide.price : ℚ) * (wBooking.seats_booked : ℚ)) / 10⌉ :=
  initiate_fee_exact_ceiling wDB 20 2 "0771234567" 0 7 "REF2" none
    wBooking wRide (by decide) (by decide) (by decide) (by decide)
    (by decide) (by decide) (by decide) (by decide) (by decide)
    (by decide) (by decide) (by decide)

end BlueOx
